import Mathlib

/-!
Verification of the Shelfie procedural-proportion mesh builder
(src/src/pipeline/meshBuilder.js, first variant, lines 1-548).

The JavaScript code computes with IEEE doubles; the model uses exact real
arithmetic (ℝ), with Real.sqrt embedding Math.sqrt.  JavaScript truthiness
on nullable numbers (null / 0 are falsy) is embedded through Option ℝ and
the helpers truthyVal, jsOrNum, jsOrD below.  Dynamically-typed input
fields (betas / thetas / keypoints may be absent or hold a non-array
value) are embedded as small sum types.
-/

open Classical

noncomputable section

namespace Shelfie

/-- Embeds the clamp helper: Math.min(Math.max(value, min), max). -/
def clamp (value lo hi : ℝ) : ℝ := min (max value lo) hi

/-- A detected 2D joint: { name, x, y, confidence }. -/
structure Keypoint where
  name : String
  x : ℝ
  y : ℝ
  confidence : ℝ

/-- An anonymous 2D point with confidence, as produced by midpoint(). -/
structure Pt where
  x : ℝ
  y : ℝ
  confidence : ℝ

/-- Projection of a Keypoint onto its coordinate part. -/
def Keypoint.pt (k : Keypoint) : Pt := ⟨k.x, k.y, k.confidence⟩

/-- The JS object built by buildKeypointMap, as a name-indexed lookup. -/
def KeypointMap : Type := String → Option Keypoint

/-- The filter condition of buildKeypointMap: kp && kp.name && kp.confidence >= minConfidence
(a present keypoint with a nonempty name and sufficient confidence). -/
def kpAccepted (minConfidence : ℝ) (k : Keypoint) : Prop :=
  k.name ≠ "" ∧ minConfidence ≤ k.confidence

/-- Embeds buildKeypointMap: a left fold over the keypoint list; each accepted
keypoint overwrites the entry under its name (JS acc[kp.name] = kp). -/
def buildKeypointMap (keypoints : List Keypoint) (minConfidence : ℝ) : KeypointMap :=
  keypoints.foldl
    (fun acc k =>
      if kpAccepted minConfidence k then Function.update acc k.name (some k) else acc)
    (fun _ => none)

/-- Embeds distance2D: Math.sqrt((a.x-b.x)^2 + (a.y-b.y)^2). -/
def distance2D (a b : Pt) : ℝ := Real.sqrt ((a.x - b.x) ^ 2 + (a.y - b.y) ^ 2)

/-- Embeds midpoint: averages the coordinates of the present points,
null when none is present. -/
def midpoint (points : List (Option Pt)) : Option Pt :=
  let valid := points.filterMap id
  if valid.length = 0 then none
  else some ⟨(valid.map Pt.x).sum / valid.length,
             (valid.map Pt.y).sum / valid.length,
             (valid.map Pt.confidence).sum / valid.length⟩

/-- JS truthiness on a nullable number: null and 0 are falsy.  Sends a
falsy value to none and keeps a truthy one. -/
def truthyVal : Option ℝ → Option ℝ
  | some v => if v = 0 then none else some v
  | none => none

/-- JS a || b on nullable numbers: b when a is falsy (null or 0). -/
def jsOrNum (a b : Option ℝ) : Option ℝ :=
  match truthyVal a with
  | some v => some v
  | none => b

/-- JS o || d with a number default: the value of o when truthy, else d. -/
def jsOrD (o : Option ℝ) (d : ℝ) : ℝ :=
  match truthyVal o with
  | some v => v
  | none => d

/-- JS a || b on nullable objects (an object is always truthy). -/
def jsOrObj {α : Type} (a b : Option α) : Option α :=
  match a with
  | some x => some x
  | none => b

/-- A JS number that may be NaN. -/
inductive JsNum where
  | nan : JsNum
  | num (v : ℝ) : JsNum

/-- The dynamically-typed betas field: absent, a (possibly NaN-containing)
numeric array, or a stray non-array number. -/
inductive BetasField where
  | missing : BetasField
  | nums (xs : List JsNum) : BetasField
  | scalar (v : ℝ) : BetasField

/-- The dynamically-typed thetas field. -/
inductive ThetasField where
  | missing : ThetasField
  | nums (xs : List ℝ) : ThetasField
  | scalar (v : ℝ) : ThetasField

/-- The dynamically-typed keypoints field. -/
inductive KeypointsField where
  | missing : KeypointsField
  | arr (kps : List Keypoint) : KeypointsField
  | scalar (v : ℝ) : KeypointsField

/-- The smplParams input object of buildMesh / deriveProportions. -/
structure SmplInput where
  betas : BetasField
  thetas : ThetasField
  keypoints : KeypointsField

/-- Embeds the read (smplParams?.betas || [])[i] || 0: a missing field, a
non-array value, an out-of-range index, a NaN entry and a 0 entry all
yield 0. -/
def betaAt (b : BetasField) (i : ℕ) : ℝ :=
  match b with
  | .nums xs =>
    match xs.get? i with
    | some (.num v) => v
    | _ => 0
  | _ => 0

/-- The body-proportion record, all fields meters-scale reals. -/
structure ProportionRecord where
  height : ℝ
  shoulderWidth : ℝ
  hipWidth : ℝ
  limbRadius : ℝ
  headRadius : ℝ
  torsoLength : ℝ
  torsoRadius : ℝ
  upperArmLength : ℝ
  forearmLength : ℝ
  thighLength : ℝ
  shinLength : ℝ

/-- Embeds deriveBaseProportions: baseline proportions from betas. -/
def deriveBaseProportions (params : SmplInput) : ProportionRecord :=
  let height := clamp (1.7 + betaAt params.betas 0 * 0.12) 1.45 1.95
  let shoulderWidth := clamp (0.38 + betaAt params.betas 1 * 0.05) 0.28 0.48
  let hipWidth := clamp (0.28 + betaAt params.betas 2 * 0.05) 0.20 0.42
  let limbRadius := clamp (0.04 + betaAt params.betas 3 * 0.015) 0.03 0.07
  { height := height
    shoulderWidth := shoulderWidth
    hipWidth := hipWidth
    limbRadius := limbRadius
    headRadius := height * 0.075
    torsoLength := height * 0.35
    torsoRadius := shoulderWidth * 0.35
    upperArmLength := height * 0.18
    forearmLength := height * 0.18
    thighLength := height * 0.25
    shinLength := height * 0.25 }

/-- Lookup of a joint name in the map, as a coordinate point. -/
def kpPt (kp : KeypointMap) (n : String) : Option Pt := (kp n).map Keypoint.pt

/-- The head anchor: kp.nose || kp.left_eye || kp.right_eye. -/
def headPt (kp : KeypointMap) : Option Pt :=
  jsOrObj (kpPt kp "nose") (jsOrObj (kpPt kp "left_eye") (kpPt kp "right_eye"))

/-- midpoint([kp.left_ankle, kp.right_ankle]). -/
def ankleMid (kp : KeypointMap) : Option Pt :=
  midpoint [kpPt kp "left_ankle", kpPt kp "right_ankle"]

/-- midpoint([kp.left_hip, kp.right_hip]). -/
def hipMid (kp : KeypointMap) : Option Pt :=
  midpoint [kpPt kp "left_hip", kpPt kp "right_hip"]

/-- midpoint([kp.left_shoulder, kp.right_shoulder]). -/
def shoulderMid (kp : KeypointMap) : Option Pt :=
  midpoint [kpPt kp "left_shoulder", kpPt kp "right_shoulder"]

/-- bodyHeightNorm = headPt && ankleMid ? distance2D(headPt, ankleMid) : null. -/
def bodyHeightNorm (kp : KeypointMap) : Option ℝ :=
  match headPt kp, ankleMid kp with
  | some h, some a => some (distance2D h a)
  | _, _ => none

/-- backupHeightNorm = shoulderMid && ankleMid ? distance2D(shoulderMid, ankleMid) : null. -/
def backupHeightNorm (kp : KeypointMap) : Option ℝ :=
  match shoulderMid kp, ankleMid kp with
  | some s, some a => some (distance2D s a)
  | _, _ => none

/-- heightNorm = bodyHeightNorm || backupHeightNorm (numeric ||: 0 is falsy). -/
def heightNorm (kp : KeypointMap) : Option ℝ :=
  jsOrNum (bodyHeightNorm kp) (backupHeightNorm kp)

/-- scale = heightNorm ? clamp(base.height / heightNorm, 0.5, 3.0) : 1.0. -/
def scaleFactor (kp : KeypointMap) (base : ProportionRecord) : ℝ :=
  match truthyVal (heightNorm kp) with
  | some v => clamp (base.height / v) 0.5 3.0
  | none => 1.0

/-- heightWorld = heightNorm ? heightNorm * scale : base.height. -/
def heightWorld (kp : KeypointMap) (base : ProportionRecord) : ℝ :=
  match truthyVal (heightNorm kp) with
  | some v => v * scaleFactor kp base
  | none => base.height

/-- measure = (a, b) => (a && b ? distance2D(a, b) * scale : null). -/
def measureSeg (a b : Option Pt) (s : ℝ) : Option ℝ :=
  match a, b with
  | some a, some b => some (distance2D a b * s)
  | _, _ => none

/-- shoulderWidth = measure(kp.left_shoulder, kp.right_shoulder). -/
def shoulderWidthKP (kp : KeypointMap) (base : ProportionRecord) : Option ℝ :=
  measureSeg (kpPt kp "left_shoulder") (kpPt kp "right_shoulder") (scaleFactor kp base)

/-- hipWidth = measure(kp.left_hip, kp.right_hip). -/
def hipWidthKP (kp : KeypointMap) (base : ProportionRecord) : Option ℝ :=
  measureSeg (kpPt kp "left_hip") (kpPt kp "right_hip") (scaleFactor kp base)

/-- upperArmLeft = measure(kp.left_shoulder, kp.left_elbow). -/
def upperArmLeftKP (kp : KeypointMap) (base : ProportionRecord) : Option ℝ :=
  measureSeg (kpPt kp "left_shoulder") (kpPt kp "left_elbow") (scaleFactor kp base)

/-- upperArmRight = measure(kp.right_shoulder, kp.right_elbow). -/
def upperArmRightKP (kp : KeypointMap) (base : ProportionRecord) : Option ℝ :=
  measureSeg (kpPt kp "right_shoulder") (kpPt kp "right_elbow") (scaleFactor kp base)

/-- forearmLeft = measure(kp.left_elbow, kp.left_wrist). -/
def forearmLeftKP (kp : KeypointMap) (base : ProportionRecord) : Option ℝ :=
  measureSeg (kpPt kp "left_elbow") (kpPt kp "left_wrist") (scaleFactor kp base)

/-- forearmRight = measure(kp.right_elbow, kp.right_wrist). -/
def forearmRightKP (kp : KeypointMap) (base : ProportionRecord) : Option ℝ :=
  measureSeg (kpPt kp "right_elbow") (kpPt kp "right_wrist") (scaleFactor kp base)

/-- thighLeft = measure(kp.left_hip, kp.left_knee). -/
def thighLeftKP (kp : KeypointMap) (base : ProportionRecord) : Option ℝ :=
  measureSeg (kpPt kp "left_hip") (kpPt kp "left_knee") (scaleFactor kp base)

/-- thighRight = measure(kp.right_hip, kp.right_knee). -/
def thighRightKP (kp : KeypointMap) (base : ProportionRecord) : Option ℝ :=
  measureSeg (kpPt kp "right_hip") (kpPt kp "right_knee") (scaleFactor kp base)

/-- shinLeft = measure(kp.left_knee, kp.left_ankle). -/
def shinLeftKP (kp : KeypointMap) (base : ProportionRecord) : Option ℝ :=
  measureSeg (kpPt kp "left_knee") (kpPt kp "left_ankle") (scaleFactor kp base)

/-- shinRight = measure(kp.right_knee, kp.right_ankle). -/
def shinRightKP (kp : KeypointMap) (base : ProportionRecord) : Option ℝ :=
  measureSeg (kpPt kp "right_knee") (kpPt kp "right_ankle") (scaleFactor kp base)

/-- eyeDistance = measure(kp.left_eye, kp.right_eye). -/
def eyeDistanceKP (kp : KeypointMap) (base : ProportionRecord) : Option ℝ :=
  measureSeg (kpPt kp "left_eye") (kpPt kp "right_eye") (scaleFactor kp base)

/-- noseEarDistance = measure(kp.nose, kp.right_ear). -/
def noseEarKP (kp : KeypointMap) (base : ProportionRecord) : Option ℝ :=
  measureSeg (kpPt kp "nose") (kpPt kp "right_ear") (scaleFactor kp base)

/-- headWidthEstimate = eyeDistance || (noseEarDistance ? noseEarDistance * 2 : null). -/
def headWidthEstimate (kp : KeypointMap) (base : ProportionRecord) : Option ℝ :=
  jsOrNum (eyeDistanceKP kp base)
    (match truthyVal (noseEarKP kp base) with
     | some v => some (v * 2)
     | none => none)

/-- neck = kp.neck || kp.nose. -/
def neckPt (kp : KeypointMap) : Option Pt := jsOrObj (kpPt kp "neck") (kpPt kp "nose")

/-- torsoLength = neck && hipMid ? measure(neck, hipMid) : null. -/
def torsoLengthKP (kp : KeypointMap) (base : ProportionRecord) : Option ℝ :=
  match neckPt kp, hipMid kp with
  | some n, some h => measureSeg (some n) (some h) (scaleFactor kp base)
  | _, _ => none

/-- clampAround = (val, baseVal, span) => val == null ? null
: clamp(val, baseVal*(1-span), baseVal*(1+span)). -/
def clampAround (val : Option ℝ) (baseVal span : ℝ) : Option ℝ :=
  match val with
  | none => none
  | some v => some (clamp v (baseVal * (1 - span)) (baseVal * (1 + span)))

/-- limbRadius = shoulderWidth ? clamp(shoulderWidth * 0.1, 0.03, 0.08) : null. -/
def limbRadiusKP (kp : KeypointMap) (base : ProportionRecord) : Option ℝ :=
  match truthyVal (shoulderWidthKP kp base) with
  | some v => some (clamp (v * 0.1) 0.03 0.08)
  | none => none

/-- The bilateral combiner [l, r].filter(Boolean).reduce((s,v,i,arr) =>
s + v/arr.length, 0) || null: the mean of the truthy sides, null when
none is truthy (the empty reduce yields 0, which || sends to null). -/
def avgPair (l r : Option ℝ) : Option ℝ :=
  let vals := [l, r].filterMap truthyVal
  truthyVal (some (vals.sum / vals.length))

/-- The keypoint-derived measures object: each field nullable. -/
structure Measures where
  height : Option ℝ
  shoulderWidth : Option ℝ
  hipWidth : Option ℝ
  limbRadius : Option ℝ
  headRadius : Option ℝ
  torsoLength : Option ℝ
  torsoRadius : Option ℝ
  upperArmLength : Option ℝ
  forearmLength : Option ℝ
  thighLength : Option ℝ
  shinLength : Option ℝ

/-- The empty measures object {} of the early return. -/
def emptyMeasures : Measures :=
  { height := none, shoulderWidth := none, hipWidth := none, limbRadius := none
    headRadius := none, torsoLength := none, torsoRadius := none
    upperArmLength := none, forearmLength := none, thighLength := none
    shinLength := none }

/-- The measures record literal of deriveProportionsFromKeypoints
(source lines 225-249). -/
def measuresOf (kp : KeypointMap) (base : ProportionRecord) : Measures :=
  { height := clampAround (some (heightWorld kp base)) base.height 0.6
    shoulderWidth := clampAround (shoulderWidthKP kp base) base.shoulderWidth 0.6
    hipWidth := clampAround (hipWidthKP kp base) base.hipWidth 0.8
    limbRadius := some (jsOrD (limbRadiusKP kp base) base.limbRadius)
    headRadius :=
      clampAround
        (match truthyVal (headWidthEstimate kp base) with
         | some v => some (v * 0.35)
         | none => none)
        base.headRadius 0.4
    torsoLength := clampAround (truthyVal (torsoLengthKP kp base)) base.torsoLength 0.4
    torsoRadius :=
      clampAround (some (jsOrD (shoulderWidthKP kp base) base.shoulderWidth * 0.35))
        base.torsoRadius 0.3
    upperArmLength :=
      clampAround (avgPair (upperArmLeftKP kp base) (upperArmRightKP kp base))
        base.upperArmLength 0.6
    forearmLength :=
      clampAround (avgPair (forearmLeftKP kp base) (forearmRightKP kp base))
        base.forearmLength 0.6
    thighLength :=
      clampAround (avgPair (thighLeftKP kp base) (thighRightKP kp base))
        base.thighLength 0.6
    shinLength :=
      clampAround (avgPair (shinLeftKP kp base) (shinRightKP kp base))
        base.shinLength 0.6 }

/-- The missingSignals warning list (source lines 215-223), in push order. -/
def warningsOf (kp : KeypointMap) (base : ProportionRecord) : List String :=
  (if truthyVal (shoulderWidthKP kp base) = none then ["shoulder width"] else []) ++
  (if truthyVal (hipWidthKP kp base) = none then ["hip width"] else []) ++
  (if truthyVal (upperArmLeftKP kp base) = none ∧ truthyVal (upperArmRightKP kp base) = none
    then ["upper arm length"] else []) ++
  (if truthyVal (forearmLeftKP kp base) = none ∧ truthyVal (forearmRightKP kp base) = none
    then ["forearm length"] else []) ++
  (if truthyVal (thighLeftKP kp base) = none ∧ truthyVal (thighRightKP kp base) = none
    then ["thigh length"] else []) ++
  (if truthyVal (shinLeftKP kp base) = none ∧ truthyVal (shinRightKP kp base) = none
    then ["shin length"] else []) ++
  (if truthyVal (headWidthEstimate kp base) = none then ["head size"] else []) ++
  (if truthyVal (heightNorm kp) = none then ["overall height"] else [])

/-- Embeds deriveProportionsFromKeypoints: the Object.keys-empty early
return, else the measures record and warning list. -/
def deriveProportionsFromKeypoints (keypoints : List Keypoint) (base : ProportionRecord) :
    Measures × List String :=
  let kp := buildKeypointMap keypoints 0.3
  if ∀ n, kp n = none then (emptyMeasures, ["no confident keypoints"])
  else (measuresOf kp base, warningsOf kp base)

/-- The merge of deriveProportions (source lines 79-91): keypoint-driven
value first, fallback to base under JS || (null and 0 fall back). -/
def mergeProportions (m : Measures) (base : ProportionRecord) : ProportionRecord :=
  { height := jsOrD m.height base.height
    shoulderWidth := jsOrD m.shoulderWidth base.shoulderWidth
    hipWidth := jsOrD m.hipWidth base.hipWidth
    limbRadius := jsOrD m.limbRadius base.limbRadius
    headRadius := jsOrD m.headRadius base.headRadius
    torsoLength := jsOrD m.torsoLength base.torsoLength
    torsoRadius := jsOrD m.torsoRadius base.torsoRadius
    upperArmLength := jsOrD m.upperArmLength base.upperArmLength
    forearmLength := jsOrD m.forearmLength base.forearmLength
    thighLength := jsOrD m.thighLength base.thighLength
    shinLength := jsOrD m.shinLength base.shinLength }

/-- Embeds deriveProportions: falls back to pure baseline when keypoints
is absent, falsy or an empty array; a stray non-array truthy keypoints
value throws inside deriveProportionsFromKeypoints in the source, which
buildMesh below surfaces, so this function is only consulted on the
remaining cases. -/
def deriveProportions (params : SmplInput) : ProportionRecord :=
  let base := deriveBaseProportions params
  match params.keypoints with
  | .arr kps =>
    if kps = [] then base
    else mergeProportions (deriveProportionsFromKeypoints kps base).1 base
  | _ => base

/-- A 3-vector (THREE.Vector3 position / Euler rotation). -/
structure Vec3 where
  x : ℝ
  y : ℝ
  z : ℝ

/-- Geometry attached to a THREE.Mesh. -/
inductive Geom where
  | capsule (radius length : ℝ) : Geom
  | sphere (radius : ℝ) : Geom
  | cylinder (radiusTop radiusBottom length : ℝ) : Geom
  | box (w h d : ℝ) : Geom

/-- A scene-graph node: a THREE.Mesh (no children are ever attached to
meshes here) or a THREE.Group. -/
inductive Obj where
  | mesh (geom : Geom) (pos rot : Vec3) : Obj
  | group (pos rot : Vec3) (childList : List Obj) : Obj

/-- object.position. -/
def Obj.position : Obj → Vec3
  | .mesh _ p _ => p
  | .group p _ _ => p

/-- object.rotation. -/
def Obj.rotation : Obj → Vec3
  | .mesh _ _ r => r
  | .group _ r _ => r

/-- object.children (empty for the meshes built here). -/
def Obj.children : Obj → List Obj
  | .mesh _ _ _ => []
  | .group _ _ cs => cs

/-- Assignment object.rotation.x = v. -/
def Obj.setRotX : Obj → ℝ → Obj
  | .mesh g p r, v => .mesh g p ⟨v, r.y, r.z⟩
  | .group p r cs, v => .group p ⟨v, r.y, r.z⟩ cs

/-- Assignment object.rotation.y = v. -/
def Obj.setRotY : Obj → ℝ → Obj
  | .mesh g p r, v => .mesh g p ⟨r.x, v, r.z⟩
  | .group p r cs, v => .group p ⟨r.x, v, r.z⟩ cs

/-- Assignment object.rotation.z = v. -/
def Obj.setRotZ : Obj → ℝ → Obj
  | .mesh g p r, v => .mesh g p ⟨r.x, r.y, v⟩
  | .group p r cs, v => .group p ⟨r.x, r.y, v⟩ cs

/-- Assignment object.position.y = v. -/
def Obj.setPosY : Obj → ℝ → Obj
  | .mesh g p r, v => .mesh g ⟨p.x, v, p.z⟩ r
  | .group p r cs, v => .group ⟨p.x, v, p.z⟩ r cs

/-- Replacement of a group node's child list (in-place child mutation). -/
def Obj.setChildren : Obj → List Obj → Obj
  | .mesh g p r, _ => .mesh g p r
  | .group p r _, cs => .group p r cs

/-- child.geometry?.type === 'SphereGeometry'. -/
def isSphereMesh : Obj → Prop
  | .mesh (.sphere _) _ _ => True
  | _ => False

/-- c.geometry?.type === 'CylinderGeometry'. -/
def isCylinderMesh : Obj → Prop
  | .mesh (.cylinder _ _ _) _ _ => True
  | _ => False

/-- g.type === 'Group'. -/
def isGroup : Obj → Prop
  | .group _ _ _ => True
  | _ => False

/-- g.children?.some(c => c.geometry?.type === 'CylinderGeometry'). -/
def hasCylinderChild (o : Obj) : Prop := ∃ c ∈ o.children, isCylinderMesh c

/-- In-place mutation of the first list element satisfying a predicate
(JS list.find(pred) followed by a field assignment on the result). -/
def updateFirst (P : Obj → Prop) (f : Obj → Obj) : List Obj → List Obj
  | [] => []
  | x :: xs => if P x then f x :: xs else x :: updateFirst P f xs

/-- Embeds thetaAt = (idx) => (thetas && thetas.length > idx ? thetas[idx] : 0);
a non-array value has no numeric length, so every index misses. -/
def thetaAt (t : ThetasField) (idx : ℕ) : ℝ :=
  match t with
  | .nums xs => if idx < xs.length then xs.getD idx 0 else 0
  | _ => 0

/-- Embeds clampDeg = (deg, min, max) => clamp(deg, min, max) * (Math.PI / 180). -/
def clampDeg (deg lo hi : ℝ) : ℝ := clamp deg lo hi * (Real.pi / 180)

/-- The head yaw written by applyMockPose: clampDeg(thetaAt(2) * 20, -20, 20). -/
def headYawVal (t : ThetasField) : ℝ := clampDeg (thetaAt t 2 * 20) (-20) 20

/-- The shoulder pitch written by applyMockPose:
clampDeg(thetaAt(isLeft ? 9 : 6) * 40, -40, 40). -/
def shoulderPitchVal (t : ThetasField) (isLeft : Bool) : ℝ :=
  clampDeg (thetaAt t (if isLeft then 9 else 6) * 40) (-40) 40

/-- The shoulder roll written by applyMockPose:
clampDeg(thetaAt(isLeft ? 8 : 5) * 25, -25, 25). -/
def shoulderRollVal (t : ThetasField) (isLeft : Bool) : ℝ :=
  clampDeg (thetaAt t (if isLeft then 8 else 5) * 25) (-25) 25

/-- The elbow bend written by applyMockPose:
clampDeg(thetaAt(isLeft ? 12 : 11) * 60, -5, 90). -/
def elbowBendVal (t : ThetasField) (isLeft : Bool) : ℝ :=
  clampDeg (thetaAt t (if isLeft then 12 else 11) * 60) (-5) 90

/-- The hip pitch written by applyMockPose:
clampDeg(thetaAt(isLeft ? 16 : 15) * 35, -30, 35). -/
def hipPitchVal (t : ThetasField) (isLeft : Bool) : ℝ :=
  clampDeg (thetaAt t (if isLeft then 16 else 15) * 35) (-30) 35

/-- The knee bend written by applyMockPose:
clampDeg(thetaAt(isLeft ? 19 : 18) * 60, -10, 90). -/
def kneeBendVal (t : ThetasField) (isLeft : Bool) : ℝ :=
  clampDeg (thetaAt t (if isLeft then 19 else 18) * 60) (-10) 90

/-- The armGroups filter (source line 437): a Group with a cylinder child,
|position.y| > 0.1 and |position.x| > 0.05. -/
def armFilter (g : Obj) : Prop :=
  isGroup g ∧ hasCylinderChild g ∧ |g.position.y| > 0.1 ∧ |g.position.x| > 0.05

/-- The legGroups filter (source line 440): a Group with a cylinder child
and |position.y| ≤ proportions.hipWidth. -/
def legFilter (p : ProportionRecord) (g : Obj) : Prop :=
  isGroup g ∧ hasCylinderChild g ∧ |g.position.y| ≤ p.hipWidth

/-- The per-arm-group body of applyMockPose: isLeft = position.x > 0;
rotation.z = shoulderRoll; rotation.x = shoulderPitch; the first Group
child (forearm) gets rotation.x = elbowBend. -/
def armUpdate (t : ThetasField) (g : Obj) : Obj :=
  let isLeft : Bool := if 0 < g.position.x then true else false
  let g1 := (g.setRotZ (shoulderRollVal t isLeft)).setRotX (shoulderPitchVal t isLeft)
  g1.setChildren (updateFirst isGroup (fun c => c.setRotX (elbowBendVal t isLeft)) g1.children)

/-- The per-leg-group body of applyMockPose: rotation.x = hipPitch; the
first Group child (shin) gets rotation.x = kneeBend. -/
def legUpdate (t : ThetasField) (g : Obj) : Obj :=
  let isLeft : Bool := if 0 < g.position.x then true else false
  let g1 := g.setRotX (hipPitchVal t isLeft)
  g1.setChildren (updateFirst isGroup (fun c => c.setRotX (kneeBendVal t isLeft)) g1.children)

/-- Embeds applyMockPose.  The source mutates in place: the first
sphere-geometry child gets the head yaw, then every child matching the
arm filter is arm-posed, then every child matching the leg filter is
leg-posed.  The filters inspect only node type, geometry and position,
none of which the pose writes touch, so the three passes compose
sequentially exactly as the source's find / filter / forEach do. -/
def applyMockPose (humanoid : Obj) (t : ThetasField) (p : ProportionRecord) : Obj :=
  match humanoid with
  | .mesh g pos r => .mesh g pos r
  | .group pos r cs =>
    let cs1 := updateFirst isSphereMesh (fun c => c.setRotY (headYawVal t)) cs
    let cs2 := cs1.map fun g => if armFilter g then armUpdate t g else g
    let cs3 := cs2.map fun g => if legFilter p g then legUpdate t g else g
    .group pos r cs3

/-- The limbSegment helper: a cylinder of the given length and radius,
positioned after creation. -/
def limbSegment (length radius : ℝ) (pos : Vec3) : Obj :=
  .mesh (.cylinder radius radius length) pos ⟨0, 0, 0⟩

/-- torso.position.y = torsoLength * 0.5 + hipWidth * 0.1. -/
def torsoY (p : ProportionRecord) : ℝ := p.torsoLength * 0.5 + p.hipWidth * 0.1

/-- shoulderY = torso.position.y + torsoLength * 0.45. -/
def shoulderYOf (p : ProportionRecord) : ℝ := torsoY p + p.torsoLength * 0.45

/-- armX = shoulderWidth * 0.5 + limbRadius * 0.3. -/
def armXOf (p : ProportionRecord) : ℝ := p.shoulderWidth * 0.5 + p.limbRadius * 0.3

/-- A forearm group: forearm cylinder plus hand sphere, pivoted at the
upper arm's far end. -/
def forearmGroupOf (p : ProportionRecord) : Obj :=
  .group ⟨0, -p.upperArmLength, 0⟩ ⟨0, 0, 0⟩
    [limbSegment p.forearmLength (p.limbRadius * 0.9) ⟨0, -(p.forearmLength * 0.5), 0⟩,
     .mesh (.sphere (p.limbRadius * 1.1)) ⟨0, -p.forearmLength, 0⟩ ⟨0, 0, 0⟩]

/-- An arm group at horizontal offset x: upper-arm cylinder plus forearm
group, pivoted at the shoulder. -/
def armGroupOf (p : ProportionRecord) (x : ℝ) : Obj :=
  .group ⟨x, shoulderYOf p, 0⟩ ⟨0, 0, 0⟩
    [limbSegment p.upperArmLength p.limbRadius ⟨0, -(p.upperArmLength * 0.5), 0⟩,
     forearmGroupOf p]

/-- A shin group: shin cylinder plus foot box, pivoted at the thigh's end. -/
def shinGroupOf (p : ProportionRecord) : Obj :=
  .group ⟨0, -p.thighLength, 0⟩ ⟨0, 0, 0⟩
    [limbSegment p.shinLength p.limbRadius ⟨0, -(p.shinLength * 0.5), 0⟩,
     .mesh (.box (p.limbRadius * 3) (p.limbRadius * 1.2) (p.limbRadius * 2))
       ⟨0, -p.shinLength, p.limbRadius⟩ ⟨0, 0, 0⟩]

/-- A leg group at horizontal offset x: thigh cylinder plus shin group,
pivoted at the hip. -/
def legGroupOf (p : ProportionRecord) (x : ℝ) : Obj :=
  .group ⟨x, p.hipWidth * 0.1, 0⟩ ⟨0, 0, 0⟩
    [limbSegment p.thighLength (p.limbRadius * 1.2) ⟨0, -(p.thighLength * 0.5), 0⟩,
     shinGroupOf p]

/-- The unposed humanoid group, children in source add order: torso
capsule, head sphere, right arm, left arm, right leg, left leg. -/
def humanoidOf (p : ProportionRecord) : Obj :=
  .group ⟨0, 0, 0⟩ ⟨0, 0, 0⟩
    [.mesh (.capsule p.torsoRadius p.torsoLength) ⟨0, torsoY p, 0⟩ ⟨0, 0, 0⟩,
     .mesh (.sphere p.headRadius) ⟨0, torsoY p + p.torsoLength * 0.6 + p.headRadius * 1.6, 0⟩
       ⟨0, 0, 0⟩,
     armGroupOf p (-armXOf p),
     armGroupOf p (armXOf p),
     legGroupOf p (-(p.hipWidth * 0.5)),
     legGroupOf p (p.hipWidth * 0.5)]

/-- groundOffset = thighLength + shinLength + footHeight*0.5 - hipY
- footHeight*0.5 + limbRadius*0.4, with footHeight = limbRadius*1.2. -/
def groundOffset (p : ProportionRecord) : ℝ :=
  p.thighLength + p.shinLength + p.limbRadius * 1.2 * 0.5 - p.hipWidth * 0.1
    - p.limbRadius * 1.2 * 0.5 + p.limbRadius * 0.4

/-- Embeds smplParams?.thetas || [] as passed to applyMockPose. -/
def jsThetas : ThetasField → ThetasField
  | .missing => .nums []
  | .scalar v => if v = 0 then .nums [] else .scalar v
  | .nums xs => .nums xs

/-- Embeds createProceduralHumanoid: derive proportions, assemble the
primitive hierarchy, apply the mock pose, then lift the root so the feet
sit near the ground. -/
def createProceduralHumanoid (params : SmplInput) : Obj :=
  let p := deriveProportions params
  let posed := applyMockPose (humanoidOf p) (jsThetas params.thetas) p
  posed.setPosY (clamp (groundOffset p) 0 p.height)

/-- The error escaping buildMesh (its catch block rethrows). -/
inductive MeshError where
  | typeError (msg : String) : MeshError

/-- pipelineConfig.inferenceMode (unnamed pipelineConfig.js source). -/
def inferenceMode : String := "real"

/-- isRealInference() = pipelineConfig.inferenceMode === 'real'. -/
def isRealInference : Prop := inferenceMode = "real"

/-- pipelineConfig.models.smplModel.enabled = false. -/
def smplModelEnabled : Prop := False

/-- Embeds buildMesh.  The real-inference branch is statically dead
(smplModel.enabled is false); it would dereference the null result of
loadSMPLModel.  The mock branch builds the procedural humanoid; the only
reachable throw is keypoints.reduce on a truthy non-array keypoints
value, which the catch block rethrows. -/
def buildMesh (params : SmplInput) : Except MeshError Obj :=
  if isRealInference ∧ smplModelEnabled then
    .error (.typeError "Cannot read properties of null (reading v_template)")
  else
    match params.keypoints with
    | .scalar v =>
      if v = 0 then .ok (createProceduralHumanoid params)
      else .error (.typeError "keypoints.reduce is not a function")
    | _ => .ok (createProceduralHumanoid params)

/-- A keypoints field that does not make buildMesh throw: anything except
a truthy non-array value. -/
def KeypointsField.wellFormed : KeypointsField → Prop
  | .scalar v => v = 0
  | _ => True

/-- Specification-side reading of the keypoint map entry under one name:
the last entry of the sequence bearing that (nonempty) name with
confidence at or above the threshold. -/
def lastConfident (kps : List Keypoint) (minConfidence : ℝ) (n : String) : Option Keypoint :=
  match kps with
  | [] => none
  | k :: rest =>
    match lastConfident rest minConfidence n with
    | some r => some r
    | none => if k.name = n ∧ kpAccepted minConfidence k then some k else none

/-- Scaling of a keypoint's image coordinates by a factor, confidence and
name unchanged (the transformation of the scale-consistency property). -/
def scaleKeypoint (k : ℝ) (p : Keypoint) : Keypoint := ⟨p.name, k * p.x, k * p.y, p.confidence⟩

/-- The coordinate-level counterpart of scaleKeypoint. -/
def scalePt (k : ℝ) (p : Pt) : Pt := ⟨k * p.x, k * p.y, p.confidence⟩

/-- A NaN beta entry replaced by the number 0. -/
def nanToZero : JsNum → JsNum
  | .nan => .num 0
  | .num v => .num v

/-- The concrete three-keypoint scenario of the specification: nose plus
the two ankles, everything else absent. -/
def c6kps : List Keypoint :=
  [⟨"nose", 0.5, 0.1, 0.9⟩, ⟨"left_ankle", 0.45, 0.95, 0.8⟩, ⟨"right_ankle", 0.55, 0.95, 0.8⟩]

/-- Ten zero betas. -/
def c6betas : List JsNum :=
  [.num 0, .num 0, .num 0, .num 0, .num 0, .num 0, .num 0, .num 0, .num 0, .num 0]

/-- The input of the concrete scenario. -/
def c6input : SmplInput := ⟨.nums c6betas, .missing, .arr c6kps⟩

/-- Two confident shoulders 0.79 apart, nothing else. -/
def wideShoulderKps : List Keypoint :=
  [⟨"left_shoulder", 0.1, 0.5, 0.9⟩, ⟨"right_shoulder", 0.89, 0.5, 0.9⟩]

/-- Input with only the wide shoulder pair. -/
def wideShoulderInput : SmplInput := ⟨.nums [], .missing, .arr wideShoulderKps⟩

/-- Nose and ankles only 0.4 apart vertically: the normalized height is
small enough that the world-scale clamp at 3.0 engages. -/
def lowHeightKps : List Keypoint :=
  [⟨"nose", 0.5, 0.1, 0.9⟩, ⟨"left_ankle", 0.45, 0.5, 0.8⟩, ⟨"right_ankle", 0.55, 0.5, 0.8⟩]

/-- Input with the low normalized height. -/
def lowHeightInput : SmplInput := ⟨.nums [], .missing, .arr lowHeightKps⟩

/-- Two confident eyes 0.8 apart, nothing else. -/
def eyesKps : List Keypoint :=
  [⟨"left_eye", 0.1, 0.5, 0.9⟩, ⟨"right_eye", 0.9, 0.5, 0.9⟩]

/-- Input with only the eye pair. -/
def eyesInput : SmplInput := ⟨.nums [], .missing, .arr eyesKps⟩

/-- Two confident shoulders at identical coordinates: a zero pairwise
distance. -/
def coShoulderKps : List Keypoint :=
  [⟨"left_shoulder", 0.5, 0.5, 0.9⟩, ⟨"right_shoulder", 0.5, 0.5, 0.9⟩]

/-- Input with the coincident shoulder pair. -/
def coShoulderInput : SmplInput := ⟨.nums [], .missing, .arr coShoulderKps⟩

/-- The as-implemented clamp bands of a final proportion record r around
its baseline record b, together with strict positivity of every field:
height, shoulder width and the four bilateral segment lengths within
plus or minus 60 percent of baseline, hip width 80, head radius and
torso length 40, torso radius 30, and limbRadius inside [0.03, 0.08]. -/
def proportionBands (b r : ProportionRecord) : Prop :=
  (0 < r.height ∧ 0 < r.shoulderWidth ∧ 0 < r.hipWidth ∧ 0 < r.limbRadius ∧ 0 < r.headRadius
    ∧ 0 < r.torsoLength ∧ 0 < r.torsoRadius ∧ 0 < r.upperArmLength ∧ 0 < r.forearmLength
    ∧ 0 < r.thighLength ∧ 0 < r.shinLength)
  ∧ (b.height * (1 - 0.6) ≤ r.height ∧ r.height ≤ b.height * (1 + 0.6))
  ∧ (b.shoulderWidth * (1 - 0.6) ≤ r.shoulderWidth
      ∧ r.shoulderWidth ≤ b.shoulderWidth * (1 + 0.6))
  ∧ (b.hipWidth * (1 - 0.8) ≤ r.hipWidth ∧ r.hipWidth ≤ b.hipWidth * (1 + 0.8))
  ∧ (0.03 ≤ r.limbRadius ∧ r.limbRadius ≤ 0.08)
  ∧ (b.headRadius * (1 - 0.4) ≤ r.headRadius ∧ r.headRadius ≤ b.headRadius * (1 + 0.4))
  ∧ (b.torsoLength * (1 - 0.4) ≤ r.torsoLength ∧ r.torsoLength ≤ b.torsoLength * (1 + 0.4))
  ∧ (b.torsoRadius * (1 - 0.3) ≤ r.torsoRadius ∧ r.torsoRadius ≤ b.torsoRadius * (1 + 0.3))
  ∧ (b.upperArmLength * (1 - 0.6) ≤ r.upperArmLength
      ∧ r.upperArmLength ≤ b.upperArmLength * (1 + 0.6))
  ∧ (b.forearmLength * (1 - 0.6) ≤ r.forearmLength
      ∧ r.forearmLength ≤ b.forearmLength * (1 + 0.6))
  ∧ (b.thighLength * (1 - 0.6) ≤ r.thighLength ∧ r.thighLength ≤ b.thighLength * (1 + 0.6))
  ∧ (b.shinLength * (1 - 0.6) ≤ r.shinLength ∧ r.shinLength ≤ b.shinLength * (1 + 0.6))

/-- The as-implemented clamp band of every resolved keypoint-derived
measurement around its baseline value: spans 0.6 for height, shoulder
width and the bilateral segment lengths, 0.8 for hip width, 0.4 for head
radius and torso length, 0.3 for torso radius. -/
def resolvedMeasureBands (b : ProportionRecord) (m : Measures) : Prop :=
  (∀ v, m.height = some v → b.height * (1 - 0.6) ≤ v ∧ v ≤ b.height * (1 + 0.6))
  ∧ (∀ v, m.shoulderWidth = some v →
      b.shoulderWidth * (1 - 0.6) ≤ v ∧ v ≤ b.shoulderWidth * (1 + 0.6))
  ∧ (∀ v, m.hipWidth = some v → b.hipWidth * (1 - 0.8) ≤ v ∧ v ≤ b.hipWidth * (1 + 0.8))
  ∧ (∀ v, m.headRadius = some v → b.headRadius * (1 - 0.4) ≤ v ∧ v ≤ b.headRadius * (1 + 0.4))
  ∧ (∀ v, m.torsoLength = some v →
      b.torsoLength * (1 - 0.4) ≤ v ∧ v ≤ b.torsoLength * (1 + 0.4))
  ∧ (∀ v, m.torsoRadius = some v →
      b.torsoRadius * (1 - 0.3) ≤ v ∧ v ≤ b.torsoRadius * (1 + 0.3))
  ∧ (∀ v, m.upperArmLength = some v →
      b.upperArmLength * (1 - 0.6) ≤ v ∧ v ≤ b.upperArmLength * (1 + 0.6))
  ∧ (∀ v, m.forearmLength = some v →
      b.forearmLength * (1 - 0.6) ≤ v ∧ v ≤ b.forearmLength * (1 + 0.6))
  ∧ (∀ v, m.thighLength = some v → b.thighLength * (1 - 0.6) ≤ v ∧ v ≤ b.thighLength * (1 + 0.6))
  ∧ (∀ v, m.shinLength = some v → b.shinLength * (1 - 0.6) ≤ v ∧ v ≤ b.shinLength * (1 + 0.6))

/-- The baseline record produced by all-zero (or empty) betas. -/
def zeroBase : ProportionRecord :=
  { height := 1.7, shoulderWidth := 0.38, hipWidth := 0.28, limbRadius := 0.04
    headRadius := 0.1275, torsoLength := 0.595, torsoRadius := 0.133
    upperArmLength := 0.306, forearmLength := 0.306, thighLength := 0.425, shinLength := 0.425 }

/-! ### Basic lemmas about the numeric helpers -/

theorem clamp_le_hi (x lo hi : ℝ) : clamp x lo hi ≤ hi := min_le_right _ _

theorem lo_le_clamp {lo hi : ℝ} (x : ℝ) (h : lo ≤ hi) : lo ≤ clamp x lo hi :=
  le_min (le_max_right _ _) h

theorem clamp_eq_self {x lo hi : ℝ} (h1 : lo ≤ x) (h2 : x ≤ hi) : clamp x lo hi = x := by
  unfold clamp
  rw [max_eq_left h1, min_eq_left h2]

theorem clamp_eq_lo {x lo hi : ℝ} (h1 : x ≤ lo) (h2 : lo ≤ hi) : clamp x lo hi = lo := by
  unfold clamp
  rw [max_eq_right h1, min_eq_left h2]

theorem clamp_eq_hi {x lo hi : ℝ} (h : hi ≤ x) : clamp x lo hi = hi := by
  unfold clamp
  exact min_eq_right (h.trans (le_max_left _ _))

theorem truthyVal_some_ne {v : ℝ} (h : v ≠ 0) : truthyVal (some v) = some v := by
  simp [truthyVal, h]

theorem truthyVal_some_zero : truthyVal (some (0 : ℝ)) = none := by simp [truthyVal]

theorem truthyVal_eq_some {o : Option ℝ} {v : ℝ} (h : truthyVal o = some v) :
    o = some v ∧ v ≠ 0 := by
  cases o with
  | none => simp [truthyVal] at h
  | some w =>
    by_cases hw : w = 0
    · simp [truthyVal, hw] at h
    · simp [truthyVal, hw] at h
      exact ⟨by rw [h], h ▸ hw⟩

theorem jsOrD_none (d : ℝ) : jsOrD none d = d := rfl

theorem jsOrD_some_ne {v : ℝ} (d : ℝ) (h : v ≠ 0) : jsOrD (some v) d = v := by
  simp [jsOrD, truthyVal, h]

theorem jsOrD_some_zero (d : ℝ) : jsOrD (some 0) d = d := by simp [jsOrD, truthyVal]

theorem jsOrD_mem {o : Option ℝ} {d lo hi : ℝ}
    (ho : ∀ v, o = some v → lo ≤ v ∧ v ≤ hi) (hd1 : lo ≤ d) (hd2 : d ≤ hi) :
    lo ≤ jsOrD o d ∧ jsOrD o d ≤ hi := by
  unfold jsOrD
  cases h : truthyVal o with
  | none => exact ⟨hd1, hd2⟩
  | some v => exact ho v (truthyVal_eq_some h).1

theorem clampAround_none (b s : ℝ) : clampAround none b s = none := rfl

theorem clampAround_some (v b s : ℝ) :
    clampAround (some v) b s = some (clamp v (b * (1 - s)) (b * (1 + s))) := rfl

theorem clampAround_mem {o : Option ℝ} {b s v : ℝ} (h : clampAround o b s = some v)
    (hb : 0 ≤ b) (hs : 0 ≤ s) : b * (1 - s) ≤ v ∧ v ≤ b * (1 + s) := by
  have hband : b * (1 - s) ≤ b * (1 + s) := by nlinarith
  cases o with
  | none => simp [clampAround] at h
  | some w =>
    rw [clampAround_some] at h
    have hv : v = clamp w (b * (1 - s)) (b * (1 + s)) := by
      exact (Option.some.injEq _ _ ▸ h).symm
    rw [hv]
    exact ⟨lo_le_clamp _ hband, clamp_le_hi _ _ _⟩

theorem avgPair_none {l r : Option ℝ} (hl : truthyVal l = none) (hr : truthyVal r = none) :
    avgPair l r = none := by
  unfold avgPair
  simp only [List.filterMap_cons, List.filterMap_nil, hl, hr]
  simp [truthyVal]

/-! ### Baseline proportion bounds -/

theorem base_height_mem (params : SmplInput) :
    1.45 ≤ (deriveBaseProportions params).height ∧ (deriveBaseProportions params).height ≤ 1.95 := by
  unfold deriveBaseProportions
  exact ⟨lo_le_clamp _ (by norm_num), clamp_le_hi _ _ _⟩

theorem base_shoulderWidth_mem (params : SmplInput) :
    0.28 ≤ (deriveBaseProportions params).shoulderWidth ∧
      (deriveBaseProportions params).shoulderWidth ≤ 0.48 := by
  unfold deriveBaseProportions
  exact ⟨lo_le_clamp _ (by norm_num), clamp_le_hi _ _ _⟩

theorem base_hipWidth_mem (params : SmplInput) :
    0.20 ≤ (deriveBaseProportions params).hipWidth ∧
      (deriveBaseProportions params).hipWidth ≤ 0.42 := by
  unfold deriveBaseProportions
  exact ⟨lo_le_clamp _ (by norm_num), clamp_le_hi _ _ _⟩

theorem base_limbRadius_mem (params : SmplInput) :
    0.03 ≤ (deriveBaseProportions params).limbRadius ∧
      (deriveBaseProportions params).limbRadius ≤ 0.07 := by
  unfold deriveBaseProportions
  exact ⟨lo_le_clamp _ (by norm_num), clamp_le_hi _ _ _⟩

theorem base_headRadius_eq (params : SmplInput) :
    (deriveBaseProportions params).headRadius = (deriveBaseProportions params).height * 0.075 := rfl

theorem base_torsoLength_eq (params : SmplInput) :
    (deriveBaseProportions params).torsoLength = (deriveBaseProportions params).height * 0.35 := rfl

theorem base_torsoRadius_eq (params : SmplInput) :
    (deriveBaseProportions params).torsoRadius
      = (deriveBaseProportions params).shoulderWidth * 0.35 := rfl

theorem base_upperArmLength_eq (params : SmplInput) :
    (deriveBaseProportions params).upperArmLength
      = (deriveBaseProportions params).height * 0.18 := rfl

theorem base_forearmLength_eq (params : SmplInput) :
    (deriveBaseProportions params).forearmLength
      = (deriveBaseProportions params).height * 0.18 := rfl

theorem base_thighLength_eq (params : SmplInput) :
    (deriveBaseProportions params).thighLength = (deriveBaseProportions params).height * 0.25 := rfl

theorem base_shinLength_eq (params : SmplInput) :
    (deriveBaseProportions params).shinLength = (deriveBaseProportions params).height * 0.25 := rfl

/-! ### Keypoint map characterization -/

theorem buildKeypointMap_go (kps : List Keypoint) (mc : ℝ) (n : String) (acc : KeypointMap) :
    (kps.foldl
        (fun acc k => if kpAccepted mc k then Function.update acc k.name (some k) else acc) acc) n
      = ((lastConfident kps mc n).elim (acc n) some) := by
  induction kps generalizing acc with
  | nil => simp [lastConfident]
  | cons k rest ih =>
    rw [List.foldl_cons, ih]
    cases hr : lastConfident rest mc n with
    | some r => simp [lastConfident, hr]
    | none =>
      simp only [lastConfident, hr, Option.elim]
      by_cases hacc : kpAccepted mc k
      · by_cases hn : k.name = n
        · simp [hacc, hn, Function.update_apply]
        · simp [hacc, hn, Function.update_apply, Ne.symm hn]
      · simp [hacc]

theorem buildKeypointMap_lookup (kps : List Keypoint) (mc : ℝ) (n : String) :
    buildKeypointMap kps mc n = lastConfident kps mc n := by
  have h := buildKeypointMap_go kps mc n (fun _ => none)
  cases hl : lastConfident kps mc n with
  | none => rw [hl] at h; simpa [buildKeypointMap] using h
  | some k => rw [hl] at h; simpa [buildKeypointMap] using h

theorem buildKeypointMap_nil (mc : ℝ) (n : String) : buildKeypointMap [] mc n = none := rfl

/-! ### Distance lemmas -/

theorem distance2D_nonneg (a b : Pt) : 0 ≤ distance2D a b := Real.sqrt_nonneg _

theorem distance2D_same_x {a b : Pt} (h : a.x = b.x) : distance2D a b = |a.y - b.y| := by
  unfold distance2D
  rw [h, sub_self]
  rw [show ((0 : ℝ) ^ 2 + (a.y - b.y) ^ 2) = (a.y - b.y) ^ 2 by ring]
  exact Real.sqrt_sq_eq_abs _

theorem distance2D_same_y {a b : Pt} (h : a.y = b.y) : distance2D a b = |a.x - b.x| := by
  unfold distance2D
  rw [h, sub_self]
  rw [show ((a.x - b.x) ^ 2 + (0 : ℝ) ^ 2) = (a.x - b.x) ^ 2 by ring]
  exact Real.sqrt_sq_eq_abs _

/-! ### Evaluation utilities for concrete inputs -/

theorem measureSeg_none_left (b : Option Pt) (s : ℝ) : measureSeg none b s = none := by
  cases b <;> rfl

theorem measureSeg_none_right (a : Option Pt) (s : ℝ) : measureSeg a none s = none := by
  cases a <;> rfl

theorem measureSeg_some (a b : Pt) (s : ℝ) :
    measureSeg (some a) (some b) s = some (distance2D a b * s) := rfl

theorem kpPt_eq_none {kp : KeypointMap} {n : String} (h : kp n = none) : kpPt kp n = none := by
  simp [kpPt, h]

theorem kpPt_eq_some {kp : KeypointMap} {n : String} {k : Keypoint} (h : kp n = some k) :
    kpPt kp n = some k.pt := by
  simp [kpPt, h]

theorem midpoint_none2 : midpoint [none, none] = none := by
  simp [midpoint]

theorem midpoint_pair (a b : Pt) :
    midpoint [some a, some b]
      = some ⟨(a.x + b.x) / 2, (a.y + b.y) / 2, (a.confidence + b.confidence) / 2⟩ := by
  simp only [midpoint, List.filterMap_cons, List.filterMap_nil, Option.some.injEq]
  norm_num [Pt.mk.injEq]

theorem base_zero_eval (betas : BetasField) (t : ThetasField) (kf : KeypointsField)
    (h0 : betaAt betas 0 = 0) (h1 : betaAt betas 1 = 0) (h2 : betaAt betas 2 = 0)
    (h3 : betaAt betas 3 = 0) :
    deriveBaseProportions ⟨betas, t, kf⟩ = zeroBase := by
  unfold deriveBaseProportions zeroBase
  rw [h0, h1, h2, h3]
  have c1 : clamp (1.7 + 0 * 0.12) 1.45 1.95 = (1.7 : ℝ) := by
    rw [show (1.7 + 0 * 0.12 : ℝ) = 1.7 by norm_num]
    exact clamp_eq_self (by norm_num) (by norm_num)
  have c2 : clamp (0.38 + 0 * 0.05) 0.28 0.48 = (0.38 : ℝ) := by
    rw [show (0.38 + 0 * 0.05 : ℝ) = 0.38 by norm_num]
    exact clamp_eq_self (by norm_num) (by norm_num)
  have c3 : clamp (0.28 + 0 * 0.05) 0.20 0.42 = (0.28 : ℝ) := by
    rw [show (0.28 + 0 * 0.05 : ℝ) = 0.28 by norm_num]
    exact clamp_eq_self (by norm_num) (by norm_num)
  have c4 : clamp (0.04 + 0 * 0.015) 0.03 0.07 = (0.04 : ℝ) := by
    rw [show (0.04 + 0 * 0.015 : ℝ) = 0.04 by norm_num]
    exact clamp_eq_self (by norm_num) (by norm_num)
  rw [c1, c2, c3, c4]
  norm_num [ProportionRecord.mk.injEq]

theorem distance2D_scale {a b : Pt} {k : ℝ} (hk : 0 ≤ k) :
    distance2D (scalePt k a) (scalePt k b) = k * distance2D a b := by
  unfold distance2D scalePt
  rw [show ((k * a.x - k * b.x) ^ 2 + (k * a.y - k * b.y) ^ 2)
        = k ^ 2 * ((a.x - b.x) ^ 2 + (a.y - b.y) ^ 2) by ring]
  rw [Real.sqrt_mul (sq_nonneg k), Real.sqrt_sq hk]

/-! ### Branch lemmas for the estimator -/

theorem dpfk_empty {kps : List Keypoint} {b : ProportionRecord}
    (h : ∀ n, buildKeypointMap kps 0.3 n = none) :
    deriveProportionsFromKeypoints kps b = (emptyMeasures, ["no confident keypoints"]) := by
  unfold deriveProportionsFromKeypoints
  rw [if_pos h]

theorem dpfk_main {kps : List Keypoint} {b : ProportionRecord}
    (h : ¬ ∀ n, buildKeypointMap kps 0.3 n = none) :
    deriveProportionsFromKeypoints kps b
      = (measuresOf (buildKeypointMap kps 0.3) b, warningsOf (buildKeypointMap kps 0.3) b) := by
  unfold deriveProportionsFromKeypoints
  rw [if_neg h]

theorem deriveProportions_arr {kps : List Keypoint} (betas : BetasField) (thetas : ThetasField)
    (hne : kps ≠ []) :
    deriveProportions ⟨betas, thetas, .arr kps⟩
      = mergeProportions
          (deriveProportionsFromKeypoints kps (deriveBaseProportions ⟨betas, thetas, .arr kps⟩)).1
          (deriveBaseProportions ⟨betas, thetas, .arr kps⟩) := by
  unfold deriveProportions
  simp [hne]

theorem deriveProportions_missing (betas : BetasField) (thetas : ThetasField) :
    deriveProportions ⟨betas, thetas, .missing⟩ = deriveBaseProportions ⟨betas, thetas, .missing⟩ :=
  rfl

theorem deriveProportions_nilArr (betas : BetasField) (thetas : ThetasField) :
    deriveProportions ⟨betas, thetas, .arr []⟩ = deriveBaseProportions ⟨betas, thetas, .arr []⟩ := by
  unfold deriveProportions
  simp

theorem deriveProportions_scalar (betas : BetasField) (thetas : ThetasField) (v : ℝ) :
    deriveProportions ⟨betas, thetas, .scalar v⟩
      = deriveBaseProportions ⟨betas, thetas, .scalar v⟩ := rfl

/-! ### clampDeg bounds -/

theorem clampDeg_mem (d : ℝ) {lo hi : ℝ} (h : lo ≤ hi) :
    lo * (Real.pi / 180) ≤ clampDeg d lo hi ∧ clampDeg d lo hi ≤ hi * (Real.pi / 180) := by
  have hpi : 0 ≤ Real.pi / 180 := by positivity
  exact ⟨mul_le_mul_of_nonneg_right (lo_le_clamp d h) hpi,
    mul_le_mul_of_nonneg_right (clamp_le_hi _ _ _) hpi⟩

/-! ### NaN-insensitivity of the baseline path -/

theorem betaAt_map_nanToZero (xs : List JsNum) (i : ℕ) :
    betaAt (.nums (xs.map nanToZero)) i = betaAt (.nums xs) i := by
  simp only [betaAt]
  rw [List.get?_map]
  cases h : xs.get? i with
  | none => simp
  | some j => cases j <;> simp [nanToZero]

/-! ### Bounds through the measures object and the merge -/

theorem limbRadiusKP_mem {kp : KeypointMap} {b : ProportionRecord} {w : ℝ}
    (h : limbRadiusKP kp b = some w) : 0.03 ≤ w ∧ w ≤ 0.08 := by
  unfold limbRadiusKP at h
  cases htv : truthyVal (shoulderWidthKP kp b) with
  | none => rw [htv] at h; exact absurd h (by simp)
  | some v =>
    rw [htv] at h
    injection h with h
    rw [← h]
    exact ⟨lo_le_clamp _ (by norm_num), clamp_le_hi _ _ _⟩

set_option maxHeartbeats 1600000 in
theorem merged_bounds (b : ProportionRecord) (m : Measures)
    (hm : m = emptyMeasures ∨ ∃ kp, m = measuresOf kp b)
    (hbh : 0 < b.height) (hbs : 0 < b.shoulderWidth) (hbw : 0 < b.hipWidth)
    (hbl1 : 0.03 ≤ b.limbRadius) (hbl2 : b.limbRadius ≤ 0.07)
    (hbhr : 0 < b.headRadius) (hbtl : 0 < b.torsoLength) (hbtr : 0 < b.torsoRadius)
    (hbua : 0 < b.upperArmLength) (hbfa : 0 < b.forearmLength)
    (hbth : 0 < b.thighLength) (hbsh : 0 < b.shinLength) :
    proportionBands b (mergeProportions m b) := by
  rcases hm with rfl | ⟨kp, rfl⟩
  · have hmb : mergeProportions emptyMeasures b = b := rfl
    rw [hmb]
    unfold proportionBands
    refine ⟨⟨hbh, hbs, hbw, by linarith, hbhr, hbtl, hbtr, hbua, hbfa, hbth, hbsh⟩,
      ⟨by nlinarith, by nlinarith⟩, ⟨by nlinarith, by nlinarith⟩, ⟨by nlinarith, by nlinarith⟩,
      ⟨hbl1, by linarith⟩, ⟨by nlinarith, by nlinarith⟩, ⟨by nlinarith, by nlinarith⟩,
      ⟨by nlinarith, by nlinarith⟩, ⟨by nlinarith, by nlinarith⟩, ⟨by nlinarith, by nlinarith⟩,
      ⟨by nlinarith, by nlinarith⟩, ⟨by nlinarith, by nlinarith⟩⟩
  · have e1a : b.height * (1 - 0.6) ≤ b.height := by nlinarith
    have e1b : b.height ≤ b.height * (1 + 0.6) := by nlinarith
    have e2a : b.shoulderWidth * (1 - 0.6) ≤ b.shoulderWidth := by nlinarith
    have e2b : b.shoulderWidth ≤ b.shoulderWidth * (1 + 0.6) := by nlinarith
    have e3a : b.hipWidth * (1 - 0.8) ≤ b.hipWidth := by nlinarith
    have e3b : b.hipWidth ≤ b.hipWidth * (1 + 0.8) := by nlinarith
    have e4a : b.headRadius * (1 - 0.4) ≤ b.headRadius := by nlinarith
    have e4b : b.headRadius ≤ b.headRadius * (1 + 0.4) := by nlinarith
    have e5a : b.torsoLength * (1 - 0.4) ≤ b.torsoLength := by nlinarith
    have e5b : b.torsoLength ≤ b.torsoLength * (1 + 0.4) := by nlinarith
    have e6a : b.torsoRadius * (1 - 0.3) ≤ b.torsoRadius := by nlinarith
    have e6b : b.torsoRadius ≤ b.torsoRadius * (1 + 0.3) := by nlinarith
    have e7a : b.upperArmLength * (1 - 0.6) ≤ b.upperArmLength := by nlinarith
    have e7b : b.upperArmLength ≤ b.upperArmLength * (1 + 0.6) := by nlinarith
    have e8a : b.forearmLength * (1 - 0.6) ≤ b.forearmLength := by nlinarith
    have e8b : b.forearmLength ≤ b.forearmLength * (1 + 0.6) := by nlinarith
    have e9a : b.thighLength * (1 - 0.6) ≤ b.thighLength := by nlinarith
    have e9b : b.thighLength ≤ b.thighLength * (1 + 0.6) := by nlinarith
    have e10a : b.shinLength * (1 - 0.6) ≤ b.shinLength := by nlinarith
    have e10b : b.shinLength ≤ b.shinLength * (1 + 0.6) := by nlinarith
    have h08 : b.limbRadius ≤ (0.08 : ℝ) := le_trans hbl2 (by norm_num)
    have p1 : (0 : ℝ) < b.height * (1 - 0.6) := by nlinarith
    have p2 : (0 : ℝ) < b.shoulderWidth * (1 - 0.6) := by nlinarith
    have p3 : (0 : ℝ) < b.hipWidth * (1 - 0.8) := by nlinarith
    have p4 : (0 : ℝ) < b.headRadius * (1 - 0.4) := by nlinarith
    have p5 : (0 : ℝ) < b.torsoLength * (1 - 0.4) := by nlinarith
    have p6 : (0 : ℝ) < b.torsoRadius * (1 - 0.3) := by nlinarith
    have p7 : (0 : ℝ) < b.upperArmLength * (1 - 0.6) := by nlinarith
    have p8 : (0 : ℝ) < b.forearmLength * (1 - 0.6) := by nlinarith
    have p9 : (0 : ℝ) < b.thighLength * (1 - 0.6) := by nlinarith
    have p10 : (0 : ℝ) < b.shinLength * (1 - 0.6) := by nlinarith
    have Hheight := jsOrD_mem
      (fun v hv => clampAround_mem
        (show clampAround (some (heightWorld kp b)) b.height 0.6 = some v from
          by simpa [measuresOf] using hv) hbh.le (by norm_num)) e1a e1b
    have Hsw := jsOrD_mem
      (fun v hv => clampAround_mem
        (show clampAround (shoulderWidthKP kp b) b.shoulderWidth 0.6 = some v from
          by simpa [measuresOf] using hv) hbs.le (by norm_num)) e2a e2b
    have Hhw := jsOrD_mem
      (fun v hv => clampAround_mem
        (show clampAround (hipWidthKP kp b) b.hipWidth 0.8 = some v from
          by simpa [measuresOf] using hv) hbw.le (by norm_num)) e3a e3b
    have Hlimb : 0.03 ≤ jsOrD (measuresOf kp b).limbRadius b.limbRadius
        ∧ jsOrD (measuresOf kp b).limbRadius b.limbRadius ≤ 0.08 := by
      refine jsOrD_mem ?_ hbl1 h08
      intro v hv
      simp only [measuresOf] at hv
      have hveq : v = jsOrD (limbRadiusKP kp b) b.limbRadius := by
        exact (Option.some.injEq _ _ ▸ hv).symm
      rw [hveq]
      exact jsOrD_mem (fun w hw => limbRadiusKP_mem hw) hbl1 h08
    have Hhr := jsOrD_mem
      (fun v hv => clampAround_mem
        (show clampAround
            (match truthyVal (headWidthEstimate kp b) with
              | some w => some (w * 0.35)
              | none => none) b.headRadius 0.4 = some v from
          by simpa [measuresOf] using hv) hbhr.le (by norm_num)) e4a e4b
    have Htl := jsOrD_mem
      (fun v hv => clampAround_mem
        (show clampAround (truthyVal (torsoLengthKP kp b)) b.torsoLength 0.4 = some v from
          by simpa [measuresOf] using hv) hbtl.le (by norm_num)) e5a e5b
    have Htr := jsOrD_mem
      (fun v hv => clampAround_mem
        (show clampAround (some (jsOrD (shoulderWidthKP kp b) b.shoulderWidth * 0.35))
            b.torsoRadius 0.3 = some v from
          by simpa [measuresOf] using hv) hbtr.le (by norm_num)) e6a e6b
    have Hua := jsOrD_mem
      (fun v hv => clampAround_mem
        (show clampAround (avgPair (upperArmLeftKP kp b) (upperArmRightKP kp b))
            b.upperArmLength 0.6 = some v from
          by simpa [measuresOf] using hv) hbua.le (by norm_num)) e7a e7b
    have Hfa := jsOrD_mem
      (fun v hv => clampAround_mem
        (show clampAround (avgPair (forearmLeftKP kp b) (forearmRightKP kp b))
            b.forearmLength 0.6 = some v from
          by simpa [measuresOf] using hv) hbfa.le (by norm_num)) e8a e8b
    have Hth := jsOrD_mem
      (fun v hv => clampAround_mem
        (show clampAround (avgPair (thighLeftKP kp b) (thighRightKP kp b))
            b.thighLength 0.6 = some v from
          by simpa [measuresOf] using hv) hbth.le (by norm_num)) e9a e9b
    have Hsh := jsOrD_mem
      (fun v hv => clampAround_mem
        (show clampAround (avgPair (shinLeftKP kp b) (shinRightKP kp b))
            b.shinLength 0.6 = some v from
          by simpa [measuresOf] using hv) hbsh.le (by norm_num)) e10a e10b
    exact ⟨⟨lt_of_lt_of_le p1 Hheight.1, lt_of_lt_of_le p2 Hsw.1, lt_of_lt_of_le p3 Hhw.1,
        lt_of_lt_of_le (by norm_num) Hlimb.1, lt_of_lt_of_le p4 Hhr.1, lt_of_lt_of_le p5 Htl.1,
        lt_of_lt_of_le p6 Htr.1, lt_of_lt_of_le p7 Hua.1, lt_of_lt_of_le p8 Hfa.1,
        lt_of_lt_of_le p9 Hth.1, lt_of_lt_of_le p10 Hsh.1⟩,
      Hheight, Hsw, Hhw, Hlimb, Hhr, Htl, Htr, Hua, Hfa, Hth, Hsh⟩

/-! ### Claim theorems -/

/-- C1 (amended): for every betas field and every keypoint sequence, the
final proportion record lies inside the as-implemented clamp bands
around the baseline record — in the keypoint path limbRadius is clamped
into [0.03, 0.08], not the documented [0.03, 0.07], and the absolute
baseline band of each field can be left by up to the relative span — and
no field is zero or negative. -/
theorem spec_C1 : ∀ (betas : BetasField) (thetas : ThetasField) (kps : List Keypoint),
    proportionBands (deriveBaseProportions ⟨betas, thetas, .arr kps⟩)
      (deriveProportions ⟨betas, thetas, .arr kps⟩) := by
  intro betas thetas kps
  have hbh := base_height_mem ⟨betas, thetas, .arr kps⟩
  have hbs := base_shoulderWidth_mem ⟨betas, thetas, .arr kps⟩
  have hbw := base_hipWidth_mem ⟨betas, thetas, .arr kps⟩
  have hbl := base_limbRadius_mem ⟨betas, thetas, .arr kps⟩
  have h1 : (0 : ℝ) < (deriveBaseProportions ⟨betas, thetas, .arr kps⟩).height := by
    linarith [hbh.1]
  have h2 : (0 : ℝ) < (deriveBaseProportions ⟨betas, thetas, .arr kps⟩).shoulderWidth := by
    linarith [hbs.1]
  have h3 : (0 : ℝ) < (deriveBaseProportions ⟨betas, thetas, .arr kps⟩).hipWidth := by
    linarith [hbw.1]
  have h4 : (0 : ℝ) < (deriveBaseProportions ⟨betas, thetas, .arr kps⟩).headRadius := by
    rw [base_headRadius_eq]; linarith [hbh.1]
  have h5 : (0 : ℝ) < (deriveBaseProportions ⟨betas, thetas, .arr kps⟩).torsoLength := by
    rw [base_torsoLength_eq]; linarith [hbh.1]
  have h6 : (0 : ℝ) < (deriveBaseProportions ⟨betas, thetas, .arr kps⟩).torsoRadius := by
    rw [base_torsoRadius_eq]; linarith [hbs.1]
  have h7 : (0 : ℝ) < (deriveBaseProportions ⟨betas, thetas, .arr kps⟩).upperArmLength := by
    rw [base_upperArmLength_eq]; linarith [hbh.1]
  have h8 : (0 : ℝ) < (deriveBaseProportions ⟨betas, thetas, .arr kps⟩).forearmLength := by
    rw [base_forearmLength_eq]; linarith [hbh.1]
  have h9 : (0 : ℝ) < (deriveBaseProportions ⟨betas, thetas, .arr kps⟩).thighLength := by
    rw [base_thighLength_eq]; linarith [hbh.1]
  have h10 : (0 : ℝ) < (deriveBaseProportions ⟨betas, thetas, .arr kps⟩).shinLength := by
    rw [base_shinLength_eq]; linarith [hbh.1]
  by_cases hk : kps = []
  · subst hk
    rw [deriveProportions_nilArr]
    exact merged_bounds _ emptyMeasures (.inl rfl) h1 h2 h3 hbl.1 hbl.2 h4 h5 h6 h7 h8 h9 h10
  · rw [deriveProportions_arr betas thetas hk]
    by_cases hkm : ∀ n, buildKeypointMap kps 0.3 n = none
    · rw [dpfk_empty hkm]
      exact merged_bounds _ emptyMeasures (.inl rfl) h1 h2 h3 hbl.1 hbl.2 h4 h5 h6 h7 h8 h9 h10
    · rw [dpfk_main hkm]
      exact merged_bounds _ _ (.inr ⟨_, rfl⟩) h1 h2 h3 hbl.1 hbl.2 h4 h5 h6 h7 h8 h9 h10

/-- C7 (amended): every keypoint-derived measurement that resolves is
clamped into a band around the corresponding baseline value, with the
as-implemented spans: 60 percent for height, shoulder width and the
bilateral limb lengths, 80 percent for hip width, but 40 percent for
head radius and torso length and 30 percent for torso radius. -/
theorem spec_C7 : ∀ (betas : BetasField) (thetas : ThetasField) (kps : List Keypoint),
    resolvedMeasureBands (deriveBaseProportions ⟨betas, thetas, .arr kps⟩)
      ((deriveProportionsFromKeypoints kps (deriveBaseProportions ⟨betas, thetas, .arr kps⟩)).1)
    := by
  intro betas thetas kps
  have hbh := base_height_mem ⟨betas, thetas, .arr kps⟩
  have hbs := base_shoulderWidth_mem ⟨betas, thetas, .arr kps⟩
  have hbw := base_hipWidth_mem ⟨betas, thetas, .arr kps⟩
  have h4 : (0 : ℝ) ≤ (deriveBaseProportions ⟨betas, thetas, .arr kps⟩).headRadius := by
    rw [base_headRadius_eq]; linarith [hbh.1]
  have h5 : (0 : ℝ) ≤ (deriveBaseProportions ⟨betas, thetas, .arr kps⟩).torsoLength := by
    rw [base_torsoLength_eq]; linarith [hbh.1]
  have h6 : (0 : ℝ) ≤ (deriveBaseProportions ⟨betas, thetas, .arr kps⟩).torsoRadius := by
    rw [base_torsoRadius_eq]; linarith [hbs.1]
  have h7 : (0 : ℝ) ≤ (deriveBaseProportions ⟨betas, thetas, .arr kps⟩).upperArmLength := by
    rw [base_upperArmLength_eq]; linarith [hbh.1]
  have h8 : (0 : ℝ) ≤ (deriveBaseProportions ⟨betas, thetas, .arr kps⟩).forearmLength := by
    rw [base_forearmLength_eq]; linarith [hbh.1]
  have h9 : (0 : ℝ) ≤ (deriveBaseProportions ⟨betas, thetas, .arr kps⟩).thighLength := by
    rw [base_thighLength_eq]; linarith [hbh.1]
  have h10 : (0 : ℝ) ≤ (deriveBaseProportions ⟨betas, thetas, .arr kps⟩).shinLength := by
    rw [base_shinLength_eq]; linarith [hbh.1]
  by_cases hkm : ∀ n, buildKeypointMap kps 0.3 n = none
  · rw [dpfk_empty hkm]
    exact ⟨fun v hv => absurd hv (by simp [emptyMeasures]),
      fun v hv => absurd hv (by simp [emptyMeasures]),
      fun v hv => absurd hv (by simp [emptyMeasures]),
      fun v hv => absurd hv (by simp [emptyMeasures]),
      fun v hv => absurd hv (by simp [emptyMeasures]),
      fun v hv => absurd hv (by simp [emptyMeasures]),
      fun v hv => absurd hv (by simp [emptyMeasures]),
      fun v hv => absurd hv (by simp [emptyMeasures]),
      fun v hv => absurd hv (by simp [emptyMeasures]),
      fun v hv => absurd hv (by simp [emptyMeasures])⟩
  · rw [dpfk_main hkm]
    exact ⟨fun v hv => clampAround_mem (by simpa [measuresOf] using hv) (by linarith [hbh.1])
        (by norm_num),
      fun v hv => clampAround_mem (by simpa [measuresOf] using hv) (by linarith [hbs.1])
        (by norm_num),
      fun v hv => clampAround_mem (by simpa [measuresOf] using hv) (by linarith [hbw.1])
        (by norm_num),
      fun v hv => clampAround_mem (by simpa [measuresOf] using hv) h4 (by norm_num),
      fun v hv => clampAround_mem (by simpa [measuresOf] using hv) h5 (by norm_num),
      fun v hv => clampAround_mem (by simpa [measuresOf] using hv) h6 (by norm_num),
      fun v hv => clampAround_mem (by simpa [measuresOf] using hv) h7 (by norm_num),
      fun v hv => clampAround_mem (by simpa [measuresOf] using hv) h8 (by norm_num),
      fun v hv => clampAround_mem (by simpa [measuresOf] using hv) h9 (by norm_num),
      fun v hv => clampAround_mem (by simpa [measuresOf] using hv) h10 (by norm_num)⟩

/-- C8 (amended): the final limbRadius is the raw resolved shoulder-width
measurement times 0.1 clamped into [0.03, 0.08] — not [0.03, 0.07] —
when shoulder width resolves to a nonzero value, and the baseline
limbRadius otherwise. -/
theorem spec_C8 : ∀ (betas : BetasField) (thetas : ThetasField) (kps : List Keypoint),
    (deriveProportions ⟨betas, thetas, .arr kps⟩).limbRadius
      = match truthyVal (shoulderWidthKP (buildKeypointMap kps 0.3)
            (deriveBaseProportions ⟨betas, thetas, .arr kps⟩)) with
        | some v => clamp (v * 0.1) 0.03 0.08
        | none => (deriveBaseProportions ⟨betas, thetas, .arr kps⟩).limbRadius := by
  intro betas thetas kps
  have hbl := base_limbRadius_mem ⟨betas, thetas, .arr kps⟩
  have hblne : (deriveBaseProportions ⟨betas, thetas, .arr kps⟩).limbRadius ≠ 0 := by
    intro h; rw [h] at hbl; linarith [hbl.1]
  by_cases hk : kps = []
  · subst hk
    rw [deriveProportions_nilArr]
    have hsw : shoulderWidthKP (buildKeypointMap [] 0.3)
        (deriveBaseProportions ⟨betas, thetas, .arr []⟩) = none := by
      simp [shoulderWidthKP, kpPt, buildKeypointMap_nil, measureSeg]
    rw [hsw]
    rfl
  · rw [deriveProportions_arr betas thetas hk]
    by_cases hkm : ∀ n, buildKeypointMap kps 0.3 n = none
    · rw [dpfk_empty hkm]
      have hsw : shoulderWidthKP (buildKeypointMap kps 0.3)
          (deriveBaseProportions ⟨betas, thetas, .arr kps⟩) = none := by
        simp [shoulderWidthKP, kpPt, hkm, measureSeg]
      rw [hsw]
      exact jsOrD_none _
    · rw [dpfk_main hkm]
      show jsOrD (some (jsOrD (limbRadiusKP (buildKeypointMap kps 0.3)
          (deriveBaseProportions ⟨betas, thetas, .arr kps⟩))
          (deriveBaseProportions ⟨betas, thetas, .arr kps⟩).limbRadius)) _ = _
      cases htv : truthyVal (shoulderWidthKP (buildKeypointMap kps 0.3)
          (deriveBaseProportions ⟨betas, thetas, .arr kps⟩)) with
      | some v =>
        have hlr : limbRadiusKP (buildKeypointMap kps 0.3)
            (deriveBaseProportions ⟨betas, thetas, .arr kps⟩)
            = some (clamp (v * 0.1) 0.03 0.08) := by
          unfold limbRadiusKP
          rw [htv]
        rw [hlr]
        have hcl : (0.03 : ℝ) ≤ clamp (v * 0.1) 0.03 0.08 := lo_le_clamp _ (by norm_num)
        have hinner : jsOrD (some (clamp (v * 0.1) 0.03 0.08))
            (deriveBaseProportions ⟨betas, thetas, .arr kps⟩).limbRadius
            = clamp (v * 0.1) 0.03 0.08 := jsOrD_some_ne _ (ne_of_gt (by linarith))
        rw [hinner]
        exact jsOrD_some_ne _ (ne_of_gt (by linarith))
      | none =>
        have hlr : limbRadiusKP (buildKeypointMap kps 0.3)
            (deriveBaseProportions ⟨betas, thetas, .arr kps⟩) = none := by
          unfold limbRadiusKP
          rw [htv]
        rw [hlr, jsOrD_none, jsOrD_some_ne _ hblne]

/-- C9: the keypoint map built by buildKeypointMap holds, under each
joint name, exactly the last sufficiently-confident entry of the input
sequence bearing that name (later confident duplicates overwrite earlier
ones), and every entry stored under a name does bear that name and did
pass the confidence filter. -/
theorem spec_C9 : ∀ (kps : List Keypoint) (minConfidence : ℝ) (n : String),
    buildKeypointMap kps minConfidence n = lastConfident kps minConfidence n
    ∧ (∀ k, buildKeypointMap kps minConfidence n = some k →
        k.name = n ∧ kpAccepted minConfidence k) := by
  intro kps mc n
  refine ⟨buildKeypointMap_lookup kps mc n, ?_⟩
  intro k hk
  rw [buildKeypointMap_lookup] at hk
  induction kps with
  | nil => simp [lastConfident] at hk
  | cons p rest ih =>
    rw [lastConfident] at hk
    cases hr : lastConfident rest mc n with
    | some r =>
      rw [hr] at hk
      exact ih (hr.trans (by injection hk with h; rw [h]))
    | none =>
      rw [hr] at hk
      by_cases hc : p.name = n ∧ kpAccepted mc p
      · rw [if_pos hc] at hk
        injection hk with h
        rw [← h]
        exact hc
      · rw [if_neg hc] at hk
        exact absurd hk (by simp)

/-- C9 witness: with two confident nose entries, the map keeps the later
one, whose stored entry bears the looked-up name and passed the filter. -/
theorem spec_C9_witness :
    buildKeypointMap [⟨"nose", 0.1, 0.1, 0.9⟩, ⟨"nose", 0.2, 0.2, 0.8⟩] 0.3 "nose"
        = lastConfident [⟨"nose", 0.1, 0.1, 0.9⟩, ⟨"nose", 0.2, 0.2, 0.8⟩] 0.3 "nose"
    ∧ lastConfident [⟨"nose", 0.1, 0.1, 0.9⟩, ⟨"nose", 0.2, 0.2, 0.8⟩] 0.3 "nose"
        = some ⟨"nose", 0.2, 0.2, 0.8⟩
    ∧ (⟨"nose", 0.2, 0.2, 0.8⟩ : Keypoint).name = "nose"
    ∧ kpAccepted 0.3 (⟨"nose", 0.2, 0.2, 0.8⟩ : Keypoint) := by
  have heval : lastConfident [⟨"nose", 0.1, 0.1, 0.9⟩, ⟨"nose", 0.2, 0.2, 0.8⟩] 0.3 "nose"
      = some ⟨"nose", 0.2, 0.2, 0.8⟩ := by
    norm_num +decide [lastConfident, kpAccepted]
  have h := spec_C9 [⟨"nose", 0.1, 0.1, 0.9⟩, ⟨"nose", 0.2, 0.2, 0.8⟩] 0.3 "nose"
  have hmem := h.2 ⟨"nose", 0.2, 0.2, 0.8⟩ (h.1.trans heval)
  exact ⟨h.1, heval, hmem.1, hmem.2⟩

/-- C10: a NaN (or missing) beta entry is read as 0 by the baseline
proportion computation, so the baseline record is unchanged when every
NaN entry is replaced by 0, its four clamped fields stay inside their
documented bands, its derived fields are the documented ratios of those,
and every field is strictly positive. -/
theorem spec_C10 : ∀ (xs : List JsNum) (t : ThetasField) (kf : KeypointsField),
    deriveBaseProportions ⟨.nums xs, t, kf⟩ = deriveBaseProportions ⟨.nums (xs.map nanToZero), t, kf⟩
    ∧ (1.45 ≤ (deriveBaseProportions ⟨.nums xs, t, kf⟩).height
        ∧ (deriveBaseProportions ⟨.nums xs, t, kf⟩).height ≤ 1.95)
    ∧ (0.28 ≤ (deriveBaseProportions ⟨.nums xs, t, kf⟩).shoulderWidth
        ∧ (deriveBaseProportions ⟨.nums xs, t, kf⟩).shoulderWidth ≤ 0.48)
    ∧ (0.20 ≤ (deriveBaseProportions ⟨.nums xs, t, kf⟩).hipWidth
        ∧ (deriveBaseProportions ⟨.nums xs, t, kf⟩).hipWidth ≤ 0.42)
    ∧ (0.03 ≤ (deriveBaseProportions ⟨.nums xs, t, kf⟩).limbRadius
        ∧ (deriveBaseProportions ⟨.nums xs, t, kf⟩).limbRadius ≤ 0.07)
    ∧ 0 < (deriveBaseProportions ⟨.nums xs, t, kf⟩).height
    ∧ 0 < (deriveBaseProportions ⟨.nums xs, t, kf⟩).shoulderWidth
    ∧ 0 < (deriveBaseProportions ⟨.nums xs, t, kf⟩).hipWidth
    ∧ 0 < (deriveBaseProportions ⟨.nums xs, t, kf⟩).limbRadius
    ∧ 0 < (deriveBaseProportions ⟨.nums xs, t, kf⟩).headRadius
    ∧ 0 < (deriveBaseProportions ⟨.nums xs, t, kf⟩).torsoLength
    ∧ 0 < (deriveBaseProportions ⟨.nums xs, t, kf⟩).torsoRadius
    ∧ 0 < (deriveBaseProportions ⟨.nums xs, t, kf⟩).upperArmLength
    ∧ 0 < (deriveBaseProportions ⟨.nums xs, t, kf⟩).forearmLength
    ∧ 0 < (deriveBaseProportions ⟨.nums xs, t, kf⟩).thighLength
    ∧ 0 < (deriveBaseProportions ⟨.nums xs, t, kf⟩).shinLength := by
  intro xs t kf
  have heq : deriveBaseProportions ⟨.nums xs, t, kf⟩
      = deriveBaseProportions ⟨.nums (xs.map nanToZero), t, kf⟩ := by
    unfold deriveBaseProportions
    simp only [betaAt_map_nanToZero]
  have hh := base_height_mem ⟨.nums xs, t, kf⟩
  have hs := base_shoulderWidth_mem ⟨.nums xs, t, kf⟩
  have hw := base_hipWidth_mem ⟨.nums xs, t, kf⟩
  have hl := base_limbRadius_mem ⟨.nums xs, t, kf⟩
  have hhp : (0 : ℝ) < (deriveBaseProportions ⟨.nums xs, t, kf⟩).height := by linarith [hh.1]
  have hsp : (0 : ℝ) < (deriveBaseProportions ⟨.nums xs, t, kf⟩).shoulderWidth := by
    linarith [hs.1]
  refine ⟨heq, hh, hs, hw, hl, hhp, hsp, by linarith [hw.1], by linarith [hl.1], ?_, ?_, ?_, ?_,
    ?_, ?_, ?_⟩
  · rw [base_headRadius_eq]; positivity
  · rw [base_torsoLength_eq]; positivity
  · rw [base_torsoRadius_eq]; positivity
  · rw [base_upperArmLength_eq]; positivity
  · rw [base_forearmLength_eq]; positivity
  · rw [base_thighLength_eq]; positivity
  · rw [base_shinLength_eq]; positivity

/-- C4: every rotation value the pose applicator writes lies inside its
clamp band converted to radians: head yaw within plus or minus 20
degrees, shoulder pitch 40, shoulder roll 25, elbow bend in [-5, 90],
hip pitch in [-30, 35], knee bend in [-10, 90]; and any theta index at
or beyond the sequence length reads as 0. -/
theorem spec_C4 : ∀ (t : ThetasField) (isLeft : Bool),
    ((-20) * (Real.pi / 180) ≤ headYawVal t ∧ headYawVal t ≤ 20 * (Real.pi / 180))
    ∧ ((-40) * (Real.pi / 180) ≤ shoulderPitchVal t isLeft
        ∧ shoulderPitchVal t isLeft ≤ 40 * (Real.pi / 180))
    ∧ ((-25) * (Real.pi / 180) ≤ shoulderRollVal t isLeft
        ∧ shoulderRollVal t isLeft ≤ 25 * (Real.pi / 180))
    ∧ ((-5) * (Real.pi / 180) ≤ elbowBendVal t isLeft
        ∧ elbowBendVal t isLeft ≤ 90 * (Real.pi / 180))
    ∧ ((-30) * (Real.pi / 180) ≤ hipPitchVal t isLeft
        ∧ hipPitchVal t isLeft ≤ 35 * (Real.pi / 180))
    ∧ ((-10) * (Real.pi / 180) ≤ kneeBendVal t isLeft
        ∧ kneeBendVal t isLeft ≤ 90 * (Real.pi / 180))
    ∧ (∀ (xs : List ℝ) (i : ℕ), xs.length ≤ i → thetaAt (.nums xs) i = 0) := by
  intro t isLeft
  refine ⟨clampDeg_mem _ (by norm_num), clampDeg_mem _ (by norm_num),
    clampDeg_mem _ (by norm_num), clampDeg_mem _ (by norm_num),
    clampDeg_mem _ (by norm_num), clampDeg_mem _ (by norm_num), ?_⟩
  intro xs i h
  simp only [thetaAt]
  rw [if_neg (by omega)]

/-- C4 witness: the bounds at the out-of-range theta value 1000 on the
left side, and the default 0 for an index beyond an empty sequence. -/
theorem spec_C4_witness :
    ((-20) * (Real.pi / 180) ≤ headYawVal (.nums [0, 0, 1000])
      ∧ headYawVal (.nums [0, 0, 1000]) ≤ 20 * (Real.pi / 180))
    ∧ thetaAt (.nums []) 5 = 0 := by
  have h := spec_C4 (.nums [0, 0, 1000]) true
  exact ⟨h.1, h.2.2.2.2.2.2 [] 5 (by norm_num)⟩

/-- C3 counterexample: with betas a stray number (not a numeric
sequence), buildMesh succeeds and returns the procedural hierarchy
instead of failing with an InvalidParameters error; and with keypoints a
stray number the failure that does occur is a TypeError from
keypoints.reduce, not a betas/thetas validation error. -/
theorem spec_C3_cex :
    buildMesh ⟨.scalar 7, .missing, .missing⟩
        = .ok (createProceduralHumanoid ⟨.scalar 7, .missing, .missing⟩)
    ∧ buildMesh ⟨.nums [], .missing, .scalar 5⟩
        = .error (.typeError "keypoints.reduce is not a function") := by
  constructor
  · unfold buildMesh
    rw [if_neg (fun h => h.2)]
  · unfold buildMesh
    rw [if_neg (fun h => h.2)]
    exact if_neg (by norm_num)

/-- C3 (amended): buildMesh never throws for any combination of missing
or partial fields — in particular it performs no betas/thetas validation
at all, silently treating non-sequence values as empty — and the only
aborting input is a truthy non-array keypoints value, which surfaces as
a TypeError. -/
theorem spec_C3 : ∀ (params : SmplInput),
    (params.keypoints.wellFormed →
      buildMesh params = .ok (createProceduralHumanoid params))
    ∧ (¬ params.keypoints.wellFormed →
      buildMesh params = .error (.typeError "keypoints.reduce is not a function")) := by
  intro params
  obtain ⟨b, t, kf⟩ := params
  unfold buildMesh
  rw [if_neg (fun h => h.2)]
  cases kf with
  | missing => exact ⟨fun _ => rfl, fun h => absurd trivial h⟩
  | arr kps => exact ⟨fun _ => rfl, fun h => absurd trivial h⟩
  | scalar v =>
    exact ⟨fun h => if_pos h, fun h => if_neg (fun hv => h hv)⟩

/-- C3 witness: a fully missing input is well-formed and builds. -/
theorem spec_C3_witness :
    (KeypointsField.missing).wellFormed
    ∧ buildMesh ⟨.missing, .missing, .missing⟩
        = .ok (createProceduralHumanoid ⟨.missing, .missing, .missing⟩) :=
  ⟨trivial, (spec_C3 ⟨.missing, .missing, .missing⟩).1 trivial⟩

theorem wideShoulder_eval :
    truthyVal (shoulderWidthKP (buildKeypointMap wideShoulderKps 0.3) zeroBase) = some 0.79
    ∧ (deriveProportions wideShoulderInput).limbRadius = 0.079 := by
  have hbase : deriveBaseProportions ⟨.nums [], .missing, .arr wideShoulderKps⟩ = zeroBase :=
    base_zero_eval _ _ _ rfl rfl rfl rfl
  have hls : buildKeypointMap wideShoulderKps 0.3 "left_shoulder"
      = some ⟨"left_shoulder", 0.1, 0.5, 0.9⟩ := by
    rw [buildKeypointMap_lookup]
    norm_num +decide [lastConfident, kpAccepted, wideShoulderKps]
  have hrs : buildKeypointMap wideShoulderKps 0.3 "right_shoulder"
      = some ⟨"right_shoulder", 0.89, 0.5, 0.9⟩ := by
    rw [buildKeypointMap_lookup]
    norm_num +decide [lastConfident, kpAccepted, wideShoulderKps]
  have hnone : ∀ n, n ≠ "left_shoulder" → n ≠ "right_shoulder" →
      buildKeypointMap wideShoulderKps 0.3 n = none := by
    intro n h1 h2
    rw [buildKeypointMap_lookup]
    simp [lastConfident, wideShoulderKps, Ne.symm h1, Ne.symm h2]
  have hhead : headPt (buildKeypointMap wideShoulderKps 0.3) = none := by
    rw [headPt, kpPt_eq_none (hnone "nose" (by decide) (by decide)),
      kpPt_eq_none (hnone "left_eye" (by decide) (by decide)),
      kpPt_eq_none (hnone "right_eye" (by decide) (by decide))]
    rfl
  have hankle : ankleMid (buildKeypointMap wideShoulderKps 0.3) = none := by
    rw [ankleMid, kpPt_eq_none (hnone "left_ankle" (by decide) (by decide)),
      kpPt_eq_none (hnone "right_ankle" (by decide) (by decide))]
    exact midpoint_none2
  have hsm : shoulderMid (buildKeypointMap wideShoulderKps 0.3)
      = some ⟨(0.1 + 0.89) / 2, (0.5 + 0.5) / 2, (0.9 + 0.9) / 2⟩ := by
    rw [shoulderMid, kpPt_eq_some hls, kpPt_eq_some hrs]
    exact midpoint_pair _ _
  have hbody : bodyHeightNorm (buildKeypointMap wideShoulderKps 0.3) = none := by
    simp only [bodyHeightNorm, hhead, hankle]
  have hbackup : backupHeightNorm (buildKeypointMap wideShoulderKps 0.3) = none := by
    simp only [backupHeightNorm, hsm, hankle]
  have hnorm : heightNorm (buildKeypointMap wideShoulderKps 0.3) = none := by
    simp only [heightNorm, jsOrNum, hbody, hbackup, truthyVal]
  have hscale : scaleFactor (buildKeypointMap wideShoulderKps 0.3) zeroBase = 1.0 := by
    simp only [scaleFactor, hnorm, truthyVal]
  have hd : distance2D (⟨"left_shoulder", 0.1, 0.5, 0.9⟩ : Keypoint).pt
      (⟨"right_shoulder", 0.89, 0.5, 0.9⟩ : Keypoint).pt = 0.79 := by
    have hy : ((⟨"left_shoulder", 0.1, 0.5, 0.9⟩ : Keypoint).pt).y
        = ((⟨"right_shoulder", 0.89, 0.5, 0.9⟩ : Keypoint).pt).y := by
      norm_num [Keypoint.pt]
    rw [distance2D_same_y hy]
    rw [show ((⟨"left_shoulder", 0.1, 0.5, 0.9⟩ : Keypoint).pt.x
        - (⟨"right_shoulder", 0.89, 0.5, 0.9⟩ : Keypoint).pt.x) = -0.79 from by
      norm_num [Keypoint.pt]]
    rw [abs_neg, abs_of_nonneg (by norm_num)]
  have hsw : shoulderWidthKP (buildKeypointMap wideShoulderKps 0.3) zeroBase = some 0.79 := by
    rw [shoulderWidthKP, kpPt_eq_some hls, kpPt_eq_some hrs, measureSeg_some, hscale, hd]
    norm_num
  have htv : truthyVal (shoulderWidthKP (buildKeypointMap wideShoulderKps 0.3) zeroBase)
      = some 0.79 := by
    rw [hsw, truthyVal_some_ne (by norm_num)]
  have hlrKP : limbRadiusKP (buildKeypointMap wideShoulderKps 0.3) zeroBase = some 0.079 := by
    simp only [limbRadiusKP, htv]
    rw [show ((0.79 : ℝ) * 0.1) = 0.079 from by norm_num,
      clamp_eq_self (by norm_num) (by norm_num)]
  have hne : ¬ ∀ n, buildKeypointMap wideShoulderKps 0.3 n = none := by
    intro h
    exact absurd (hls.symm.trans (h "left_shoulder")) (by simp)
  refine ⟨htv, ?_⟩
  show (deriveProportions ⟨.nums [], .missing, .arr wideShoulderKps⟩).limbRadius = 0.079
  rw [deriveProportions_arr _ _ (by simp [wideShoulderKps]), hbase, dpfk_main hne]
  show jsOrD (measuresOf (buildKeypointMap wideShoulderKps 0.3) zeroBase).limbRadius
      zeroBase.limbRadius = 0.079
  simp only [measuresOf]
  rw [hlrKP]
  have hj : jsOrD (some (0.079 : ℝ)) zeroBase.limbRadius = 0.079 :=
    jsOrD_some_ne _ (by norm_num)
  rw [hj, hj]

/-- C8 counterexample: with two confident shoulders 0.79 apart the
shoulder width resolves to 0.79, and the final limbRadius is 0.079 —
not the value clamped into the documented band [0.03, 0.07], which
would be 0.07. -/
theorem spec_C8_cex :
    truthyVal (shoulderWidthKP (buildKeypointMap wideShoulderKps 0.3) zeroBase) = some 0.79
    ∧ (deriveProportions wideShoulderInput).limbRadius = 0.079
    ∧ clamp (0.79 * 0.1) 0.03 0.07 = 0.07
    ∧ ¬((0.079 : ℝ) = clamp (0.79 * 0.1) 0.03 0.07) := by
  refine ⟨wideShoulder_eval.1, wideShoulder_eval.2, ?_, ?_⟩
  · rw [show ((0.79 : ℝ) * 0.1) = 0.079 from by norm_num]
    exact clamp_eq_hi (by norm_num)
  · rw [show ((0.79 : ℝ) * 0.1) = 0.079 from by norm_num, clamp_eq_hi (by norm_num)]
    norm_num

theorem lowHeight_eval : (deriveProportions lowHeightInput).height = 1.2 := by
  have hbase : deriveBaseProportions ⟨.nums [], .missing, .arr lowHeightKps⟩ = zeroBase :=
    base_zero_eval _ _ _ rfl rfl rfl rfl
  have hnose : buildKeypointMap lowHeightKps 0.3 "nose" = some ⟨"nose", 0.5, 0.1, 0.9⟩ := by
    rw [buildKeypointMap_lookup]
    norm_num +decide [lastConfident, kpAccepted, lowHeightKps]
  have hla : buildKeypointMap lowHeightKps 0.3 "left_ankle"
      = some ⟨"left_ankle", 0.45, 0.5, 0.8⟩ := by
    rw [buildKeypointMap_lookup]
    norm_num +decide [lastConfident, kpAccepted, lowHeightKps]
  have hra : buildKeypointMap lowHeightKps 0.3 "right_ankle"
      = some ⟨"right_ankle", 0.55, 0.5, 0.8⟩ := by
    rw [buildKeypointMap_lookup]
    norm_num +decide [lastConfident, kpAccepted, lowHeightKps]
  have hhead : headPt (buildKeypointMap lowHeightKps 0.3)
      = some (⟨"nose", 0.5, 0.1, 0.9⟩ : Keypoint).pt := by
    rw [headPt, kpPt_eq_some hnose]
    rfl
  have hank : ankleMid (buildKeypointMap lowHeightKps 0.3)
      = some ⟨(0.45 + 0.55) / 2, (0.5 + 0.5) / 2, (0.8 + 0.8) / 2⟩ := by
    rw [ankleMid, kpPt_eq_some hla, kpPt_eq_some hra]
    exact midpoint_pair _ _
  have hd : distance2D (⟨"nose", 0.5, 0.1, 0.9⟩ : Keypoint).pt
      ⟨(0.45 + 0.55) / 2, (0.5 + 0.5) / 2, (0.8 + 0.8) / 2⟩ = 0.4 := by
    have hx : ((⟨"nose", 0.5, 0.1, 0.9⟩ : Keypoint).pt).x
        = (⟨(0.45 + 0.55) / 2, (0.5 + 0.5) / 2, (0.8 + 0.8) / 2⟩ : Pt).x := by
      norm_num [Keypoint.pt]
    rw [distance2D_same_x hx]
    rw [show (((⟨"nose", 0.5, 0.1, 0.9⟩ : Keypoint).pt).y
        - (⟨(0.45 + 0.55) / 2, (0.5 + 0.5) / 2, (0.8 + 0.8) / 2⟩ : Pt).y) = -0.4 from by
      norm_num [Keypoint.pt]]
    rw [abs_neg, abs_of_nonneg (by norm_num)]
  have hbody : bodyHeightNorm (buildKeypointMap lowHeightKps 0.3) = some 0.4 := by
    simp only [bodyHeightNorm, hhead, hank]
    rw [hd]
  have hnorm : heightNorm (buildKeypointMap lowHeightKps 0.3) = some 0.4 := by
    simp only [heightNorm, jsOrNum, hbody, truthyVal_some_ne (show (0.4 : ℝ) ≠ 0 from by
      norm_num)]
  have hscale : scaleFactor (buildKeypointMap lowHeightKps 0.3) zeroBase = 3.0 := by
    simp only [scaleFactor, hnorm, truthyVal_some_ne (show (0.4 : ℝ) ≠ 0 from by norm_num)]
    rw [show zeroBase.height / 0.4 = (4.25 : ℝ) from by norm_num [zeroBase]]
    exact clamp_eq_hi (by norm_num)
  have hworld : heightWorld (buildKeypointMap lowHeightKps 0.3) zeroBase = 1.2 := by
    simp only [heightWorld, hnorm, truthyVal_some_ne (show (0.4 : ℝ) ≠ 0 from by norm_num),
      hscale]
    norm_num
  have hne : ¬ ∀ n, buildKeypointMap lowHeightKps 0.3 n = none := by
    intro h
    exact absurd (hnose.symm.trans (h "nose")) (by simp)
  show (deriveProportions ⟨.nums [], .missing, .arr lowHeightKps⟩).height = 1.2
  rw [deriveProportions_arr _ _ (by simp [lowHeightKps]), hbase, dpfk_main hne]
  show jsOrD (measuresOf (buildKeypointMap lowHeightKps 0.3) zeroBase).height
      zeroBase.height = 1.2
  simp only [measuresOf, clampAround, hworld]
  rw [show zeroBase.height * (1 - 0.6) = (0.68 : ℝ) from by norm_num [zeroBase],
    show zeroBase.height * (1 + 0.6) = (2.72 : ℝ) from by norm_num [zeroBase],
    clamp_eq_self (by norm_num) (by norm_num)]
  exact jsOrD_some_ne _ (by norm_num)

theorem lowHeightScaled_eval :
    (deriveProportions ⟨.nums [], .missing, .arr (lowHeightKps.map (scaleKeypoint 2))⟩).height
      = 1.7 := by
  have hmap : lowHeightKps.map (scaleKeypoint 2)
      = [⟨"nose", 1, 0.2, 0.9⟩, ⟨"left_ankle", 0.9, 1, 0.8⟩, ⟨"right_ankle", 1.1, 1, 0.8⟩] := by
    simp only [lowHeightKps, List.map_cons, List.map_nil, scaleKeypoint]
    norm_num
  rw [hmap]
  have hbase : deriveBaseProportions ⟨.nums [], .missing,
      .arr [⟨"nose", 1, 0.2, 0.9⟩, ⟨"left_ankle", 0.9, 1, 0.8⟩, ⟨"right_ankle", 1.1, 1, 0.8⟩]⟩
      = zeroBase := base_zero_eval _ _ _ rfl rfl rfl rfl
  have hnose : buildKeypointMap
      [⟨"nose", 1, 0.2, 0.9⟩, ⟨"left_ankle", 0.9, 1, 0.8⟩, ⟨"right_ankle", 1.1, 1, 0.8⟩] 0.3
      "nose" = some ⟨"nose", 1, 0.2, 0.9⟩ := by
    rw [buildKeypointMap_lookup]
    norm_num +decide [lastConfident, kpAccepted]
  have hla : buildKeypointMap
      [⟨"nose", 1, 0.2, 0.9⟩, ⟨"left_ankle", 0.9, 1, 0.8⟩, ⟨"right_ankle", 1.1, 1, 0.8⟩] 0.3
      "left_ankle" = some ⟨"left_ankle", 0.9, 1, 0.8⟩ := by
    rw [buildKeypointMap_lookup]
    norm_num +decide [lastConfident, kpAccepted]
  have hra : buildKeypointMap
      [⟨"nose", 1, 0.2, 0.9⟩, ⟨"left_ankle", 0.9, 1, 0.8⟩, ⟨"right_ankle", 1.1, 1, 0.8⟩] 0.3
      "right_ankle" = some ⟨"right_ankle", 1.1, 1, 0.8⟩ := by
    rw [buildKeypointMap_lookup]
    norm_num +decide [lastConfident, kpAccepted]
  have hhead : headPt (buildKeypointMap
      [⟨"nose", 1, 0.2, 0.9⟩, ⟨"left_ankle", 0.9, 1, 0.8⟩, ⟨"right_ankle", 1.1, 1, 0.8⟩] 0.3)
      = some (⟨"nose", 1, 0.2, 0.9⟩ : Keypoint).pt := by
    rw [headPt, kpPt_eq_some hnose]
    rfl
  have hank : ankleMid (buildKeypointMap
      [⟨"nose", 1, 0.2, 0.9⟩, ⟨"left_ankle", 0.9, 1, 0.8⟩, ⟨"right_ankle", 1.1, 1, 0.8⟩] 0.3)
      = some ⟨(0.9 + 1.1) / 2, (1 + 1) / 2, (0.8 + 0.8) / 2⟩ := by
    rw [ankleMid, kpPt_eq_some hla, kpPt_eq_some hra]
    exact midpoint_pair _ _
  have hd : distance2D (⟨"nose", 1, 0.2, 0.9⟩ : Keypoint).pt
      ⟨(0.9 + 1.1) / 2, (1 + 1) / 2, (0.8 + 0.8) / 2⟩ = 0.8 := by
    have hx : ((⟨"nose", 1, 0.2, 0.9⟩ : Keypoint).pt).x
        = (⟨(0.9 + 1.1) / 2, (1 + 1) / 2, (0.8 + 0.8) / 2⟩ : Pt).x := by
      norm_num [Keypoint.pt]
    rw [distance2D_same_x hx]
    rw [show (((⟨"nose", 1, 0.2, 0.9⟩ : Keypoint).pt).y
        - (⟨(0.9 + 1.1) / 2, (1 + 1) / 2, (0.8 + 0.8) / 2⟩ : Pt).y) = -0.8 from by
      norm_num [Keypoint.pt]]
    rw [abs_neg, abs_of_nonneg (by norm_num)]
  have hbody : bodyHeightNorm (buildKeypointMap
      [⟨"nose", 1, 0.2, 0.9⟩, ⟨"left_ankle", 0.9, 1, 0.8⟩, ⟨"right_ankle", 1.1, 1, 0.8⟩] 0.3)
      = some 0.8 := by
    simp only [bodyHeightNorm, hhead, hank]
    rw [hd]
  have hnorm : heightNorm (buildKeypointMap
      [⟨"nose", 1, 0.2, 0.9⟩, ⟨"left_ankle", 0.9, 1, 0.8⟩, ⟨"right_ankle", 1.1, 1, 0.8⟩] 0.3)
      = some 0.8 := by
    simp only [heightNorm, jsOrNum, hbody, truthyVal_some_ne (show (0.8 : ℝ) ≠ 0 from by
      norm_num)]
  have hscale : scaleFactor (buildKeypointMap
      [⟨"nose", 1, 0.2, 0.9⟩, ⟨"left_ankle", 0.9, 1, 0.8⟩, ⟨"right_ankle", 1.1, 1, 0.8⟩] 0.3)
      zeroBase = 2.125 := by
    simp only [scaleFactor, hnorm, truthyVal_some_ne (show (0.8 : ℝ) ≠ 0 from by norm_num)]
    rw [show zeroBase.height / 0.8 = (2.125 : ℝ) from by norm_num [zeroBase]]
    exact clamp_eq_self (by norm_num) (by norm_num)
  have hworld : heightWorld (buildKeypointMap
      [⟨"nose", 1, 0.2, 0.9⟩, ⟨"left_ankle", 0.9, 1, 0.8⟩, ⟨"right_ankle", 1.1, 1, 0.8⟩] 0.3)
      zeroBase = 1.7 := by
    simp only [heightWorld, hnorm, truthyVal_some_ne (show (0.8 : ℝ) ≠ 0 from by norm_num),
      hscale]
    norm_num
  have hne : ¬ ∀ n, buildKeypointMap
      [⟨"nose", 1, 0.2, 0.9⟩, ⟨"left_ankle", 0.9, 1, 0.8⟩, ⟨"right_ankle", 1.1, 1, 0.8⟩] 0.3
      n = none := by
    intro h
    exact absurd (hnose.symm.trans (h "nose")) (by simp)
  rw [deriveProportions_arr _ _ (by simp), hbase, dpfk_main hne]
  show jsOrD (measuresOf (buildKeypointMap
      [⟨"nose", 1, 0.2, 0.9⟩, ⟨"left_ankle", 0.9, 1, 0.8⟩, ⟨"right_ankle", 1.1, 1, 0.8⟩] 0.3)
      zeroBase).height zeroBase.height = 1.7
  simp only [measuresOf, clampAround, hworld]
  rw [show zeroBase.height * (1 - 0.6) = (0.68 : ℝ) from by norm_num [zeroBase],
    show zeroBase.height * (1 + 0.6) = (2.72 : ℝ) from by norm_num [zeroBase],
    clamp_eq_self (by norm_num) (by norm_num)]
  exact jsOrD_some_ne _ (by norm_num)

/-- C1 counterexample: a resolved 0.79 shoulder width drives limbRadius
to 0.079, outside the documented band [0.03, 0.07]; and a small
normalized-height detection drives the final height to 1.2, outside the
documented baseline band [1.45, 1.95]. -/
theorem spec_C1_cex :
    (deriveProportions wideShoulderInput).limbRadius = 0.079
    ∧ ¬((deriveProportions wideShoulderInput).limbRadius ≤ 0.07)
    ∧ (deriveProportions lowHeightInput).height = 1.2
    ∧ ¬(1.45 ≤ (deriveProportions lowHeightInput).height) := by
  refine ⟨wideShoulder_eval.2, ?_, lowHeight_eval, ?_⟩
  · rw [wideShoulder_eval.2]
    norm_num
  · rw [lowHeight_eval]
    norm_num

/-- C2 counterexample: scaling the low-height keypoint set by k = 2
moves the world-scale factor off its clamp at 3.0 and changes the final
height from 1.2 to 1.7, so the final record is not invariant under
coordinate scaling. -/
theorem spec_C2_cex :
    (deriveProportions ⟨.nums [], .missing, .arr (lowHeightKps.map (scaleKeypoint 2))⟩).height
      = 1.7
    ∧ (deriveProportions lowHeightInput).height = 1.2
    ∧ deriveProportions ⟨.nums [], .missing, .arr (lowHeightKps.map (scaleKeypoint 2))⟩
        ≠ deriveProportions lowHeightInput := by
  refine ⟨lowHeightScaled_eval, lowHeight_eval, ?_⟩
  intro h
  have hh := congrArg ProportionRecord.height h
  rw [lowHeightScaled_eval, lowHeight_eval] at hh
  norm_num at hh

theorem deriveProportions_cases (betas : BetasField) (thetas : ThetasField)
    (kps : List Keypoint) :
    ((∀ n, buildKeypointMap kps 0.3 n = none)
      ∧ deriveProportions ⟨betas, thetas, .arr kps⟩
          = mergeProportions emptyMeasures (deriveBaseProportions ⟨betas, thetas, .arr kps⟩))
    ∨ deriveProportions ⟨betas, thetas, .arr kps⟩
        = mergeProportions
            (measuresOf (buildKeypointMap kps 0.3)
              (deriveBaseProportions ⟨betas, thetas, .arr kps⟩))
            (deriveBaseProportions ⟨betas, thetas, .arr kps⟩) := by
  by_cases hk : kps = []
  · subst hk
    left
    refine ⟨fun n => buildKeypointMap_nil 0.3 n, ?_⟩
    rw [deriveProportions_nilArr]
    rfl
  · rw [deriveProportions_arr _ _ hk]
    by_cases hkm : ∀ n, buildKeypointMap kps 0.3 n = none
    · left
      exact ⟨hkm, by rw [dpfk_empty hkm]⟩
    · right
      rw [dpfk_main hkm]

theorem shoulder_zero_final (betas : BetasField) (thetas : ThetasField) (kps : List Keypoint)
    (h : shoulderWidthKP (buildKeypointMap kps 0.3)
        (deriveBaseProportions ⟨betas, thetas, .arr kps⟩) = some 0) :
    (deriveProportions ⟨betas, thetas, .arr kps⟩).shoulderWidth
      = (deriveBaseProportions ⟨betas, thetas, .arr kps⟩).shoulderWidth * (1 - 0.6)
    ∧ (deriveProportions ⟨betas, thetas, .arr kps⟩).limbRadius
      = (deriveBaseProportions ⟨betas, thetas, .arr kps⟩).limbRadius
    ∧ (deriveProportions ⟨betas, thetas, .arr kps⟩).torsoRadius
      = (deriveBaseProportions ⟨betas, thetas, .arr kps⟩).torsoRadius := by
  have hbs := base_shoulderWidth_mem ⟨betas, thetas, .arr kps⟩
  have hbl := base_limbRadius_mem ⟨betas, thetas, .arr kps⟩
  have htr : (0 : ℝ) < (deriveBaseProportions ⟨betas, thetas, .arr kps⟩).torsoRadius := by
    rw [base_torsoRadius_eq]
    nlinarith [hbs.1]
  rcases deriveProportions_cases betas thetas kps with ⟨hkm, hr⟩ | hr
  · exfalso
    have : shoulderWidthKP (buildKeypointMap kps 0.3)
        (deriveBaseProportions ⟨betas, thetas, .arr kps⟩) = none := by
      rw [shoulderWidthKP, kpPt_eq_none (hkm "left_shoulder"), measureSeg_none_left]
    rw [this] at h
    exact Option.noConfusion h
  · refine ⟨?_, ?_, ?_⟩
    · rw [hr]
      show jsOrD (clampAround (shoulderWidthKP (buildKeypointMap kps 0.3)
          (deriveBaseProportions ⟨betas, thetas, .arr kps⟩))
          (deriveBaseProportions ⟨betas, thetas, .arr kps⟩).shoulderWidth 0.6)
          (deriveBaseProportions ⟨betas, thetas, .arr kps⟩).shoulderWidth
        = (deriveBaseProportions ⟨betas, thetas, .arr kps⟩).shoulderWidth * (1 - 0.6)
      rw [h, clampAround_some, clamp_eq_lo (by nlinarith [hbs.1]) (by nlinarith [hbs.1]),
        jsOrD_some_ne _ (ne_of_gt (by nlinarith [hbs.1]))]
    · rw [hr]
      have hlr : limbRadiusKP (buildKeypointMap kps 0.3)
          (deriveBaseProportions ⟨betas, thetas, .arr kps⟩) = none := by
        simp only [limbRadiusKP, h, truthyVal_some_zero]
      show jsOrD (some (jsOrD (limbRadiusKP (buildKeypointMap kps 0.3)
          (deriveBaseProportions ⟨betas, thetas, .arr kps⟩))
          (deriveBaseProportions ⟨betas, thetas, .arr kps⟩).limbRadius))
          (deriveBaseProportions ⟨betas, thetas, .arr kps⟩).limbRadius
        = (deriveBaseProportions ⟨betas, thetas, .arr kps⟩).limbRadius
      rw [hlr, jsOrD_none, jsOrD_some_ne _ (ne_of_gt (by nlinarith [hbl.1]))]
    · rw [hr]
      show jsOrD (clampAround (some (jsOrD (shoulderWidthKP (buildKeypointMap kps 0.3)
          (deriveBaseProportions ⟨betas, thetas, .arr kps⟩))
          (deriveBaseProportions ⟨betas, thetas, .arr kps⟩).shoulderWidth * 0.35))
          (deriveBaseProportions ⟨betas, thetas, .arr kps⟩).torsoRadius 0.3)
          (deriveBaseProportions ⟨betas, thetas, .arr kps⟩).torsoRadius
        = (deriveBaseProportions ⟨betas, thetas, .arr kps⟩).torsoRadius
      rw [h, jsOrD_some_zero, ← base_torsoRadius_eq, clampAround_some,
        clamp_eq_self (by nlinarith) (by nlinarith), jsOrD_some_ne _ (ne_of_gt htr)]

theorem hip_zero_final (betas : BetasField) (thetas : ThetasField) (kps : List Keypoint)
    (h : hipWidthKP (buildKeypointMap kps 0.3)
        (deriveBaseProportions ⟨betas, thetas, .arr kps⟩) = some 0) :
    (deriveProportions ⟨betas, thetas, .arr kps⟩).hipWidth
      = (deriveBaseProportions ⟨betas, thetas, .arr kps⟩).hipWidth * (1 - 0.8) := by
  have hbw := base_hipWidth_mem ⟨betas, thetas, .arr kps⟩
  rcases deriveProportions_cases betas thetas kps with ⟨hkm, hr⟩ | hr
  · exfalso
    have : hipWidthKP (buildKeypointMap kps 0.3)
        (deriveBaseProportions ⟨betas, thetas, .arr kps⟩) = none := by
      rw [hipWidthKP, kpPt_eq_none (hkm "left_hip"), measureSeg_none_left]
    rw [this] at h
    exact Option.noConfusion h
  · rw [hr]
    show jsOrD (clampAround (hipWidthKP (buildKeypointMap kps 0.3)
        (deriveBaseProportions ⟨betas, thetas, .arr kps⟩))
        (deriveBaseProportions ⟨betas, thetas, .arr kps⟩).hipWidth 0.8)
        (deriveBaseProportions ⟨betas, thetas, .arr kps⟩).hipWidth
      = (deriveBaseProportions ⟨betas, thetas, .arr kps⟩).hipWidth * (1 - 0.8)
    rw [h, clampAround_some, clamp_eq_lo (by nlinarith [hbw.1]) (by nlinarith [hbw.1]),
      jsOrD_some_ne _ (ne_of_gt (by nlinarith [hbw.1]))]

theorem upperArm_none_final (betas : BetasField) (thetas : ThetasField) (kps : List Keypoint)
    (h1 : truthyVal (upperArmLeftKP (buildKeypointMap kps 0.3)
        (deriveBaseProportions ⟨betas, thetas, .arr kps⟩)) = none)
    (h2 : truthyVal (upperArmRightKP (buildKeypointMap kps 0.3)
        (deriveBaseProportions ⟨betas, thetas, .arr kps⟩)) = none) :
    (deriveProportions ⟨betas, thetas, .arr kps⟩).upperArmLength
      = (deriveBaseProportions ⟨betas, thetas, .arr kps⟩).upperArmLength := by
  rcases deriveProportions_cases betas thetas kps with ⟨hkm, hr⟩ | hr
  · rw [hr]
    rfl
  · rw [hr]
    show jsOrD (clampAround (avgPair (upperArmLeftKP (buildKeypointMap kps 0.3)
        (deriveBaseProportions ⟨betas, thetas, .arr kps⟩))
        (upperArmRightKP (buildKeypointMap kps 0.3)
          (deriveBaseProportions ⟨betas, thetas, .arr kps⟩)))
        (deriveBaseProportions ⟨betas, thetas, .arr kps⟩).upperArmLength 0.6)
        (deriveBaseProportions ⟨betas, thetas, .arr kps⟩).upperArmLength
      = (deriveBaseProportions ⟨betas, thetas, .arr kps⟩).upperArmLength
    rw [avgPair_none h1 h2, clampAround_none, jsOrD_none]

theorem forearm_none_final (betas : BetasField) (thetas : ThetasField) (kps : List Keypoint)
    (h1 : truthyVal (forearmLeftKP (buildKeypointMap kps 0.3)
        (deriveBaseProportions ⟨betas, thetas, .arr kps⟩)) = none)
    (h2 : truthyVal (forearmRightKP (buildKeypointMap kps 0.3)
        (deriveBaseProportions ⟨betas, thetas, .arr kps⟩)) = none) :
    (deriveProportions ⟨betas, thetas, .arr kps⟩).forearmLength
      = (deriveBaseProportions ⟨betas, thetas, .arr kps⟩).forearmLength := by
  rcases deriveProportions_cases betas thetas kps with ⟨hkm, hr⟩ | hr
  · rw [hr]
    rfl
  · rw [hr]
    show jsOrD (clampAround (avgPair (forearmLeftKP (buildKeypointMap kps 0.3)
        (deriveBaseProportions ⟨betas, thetas, .arr kps⟩))
        (forearmRightKP (buildKeypointMap kps 0.3)
          (deriveBaseProportions ⟨betas, thetas, .arr kps⟩)))
        (deriveBaseProportions ⟨betas, thetas, .arr kps⟩).forearmLength 0.6)
        (deriveBaseProportions ⟨betas, thetas, .arr kps⟩).forearmLength
      = (deriveBaseProportions ⟨betas, thetas, .arr kps⟩).forearmLength
    rw [avgPair_none h1 h2, clampAround_none, jsOrD_none]

theorem thigh_none_final (betas : BetasField) (thetas : ThetasField) (kps : List Keypoint)
    (h1 : truthyVal (thighLeftKP (buildKeypointMap kps 0.3)
        (deriveBaseProportions ⟨betas, thetas, .arr kps⟩)) = none)
    (h2 : truthyVal (thighRightKP (buildKeypointMap kps 0.3)
        (deriveBaseProportions ⟨betas, thetas, .arr kps⟩)) = none) :
    (deriveProportions ⟨betas, thetas, .arr kps⟩).thighLength
      = (deriveBaseProportions ⟨betas, thetas, .arr kps⟩).thighLength := by
  rcases deriveProportions_cases betas thetas kps with ⟨hkm, hr⟩ | hr
  · rw [hr]
    rfl
  · rw [hr]
    show jsOrD (clampAround (avgPair (thighLeftKP (buildKeypointMap kps 0.3)
        (deriveBaseProportions ⟨betas, thetas, .arr kps⟩))
        (thighRightKP (buildKeypointMap kps 0.3)
          (deriveBaseProportions ⟨betas, thetas, .arr kps⟩)))
        (deriveBaseProportions ⟨betas, thetas, .arr kps⟩).thighLength 0.6)
        (deriveBaseProportions ⟨betas, thetas, .arr kps⟩).thighLength
      = (deriveBaseProportions ⟨betas, thetas, .arr kps⟩).thighLength
    rw [avgPair_none h1 h2, clampAround_none, jsOrD_none]

theorem shin_none_final (betas : BetasField) (thetas : ThetasField) (kps : List Keypoint)
    (h1 : truthyVal (shinLeftKP (buildKeypointMap kps 0.3)
        (deriveBaseProportions ⟨betas, thetas, .arr kps⟩)) = none)
    (h2 : truthyVal (shinRightKP (buildKeypointMap kps 0.3)
        (deriveBaseProportions ⟨betas, thetas, .arr kps⟩)) = none) :
    (deriveProportions ⟨betas, thetas, .arr kps⟩).shinLength
      = (deriveBaseProportions ⟨betas, thetas, .arr kps⟩).shinLength := by
  rcases deriveProportions_cases betas thetas kps with ⟨hkm, hr⟩ | hr
  · rw [hr]
    rfl
  · rw [hr]
    show jsOrD (clampAround (avgPair (shinLeftKP (buildKeypointMap kps 0.3)
        (deriveBaseProportions ⟨betas, thetas, .arr kps⟩))
        (shinRightKP (buildKeypointMap kps 0.3)
          (deriveBaseProportions ⟨betas, thetas, .arr kps⟩)))
        (deriveBaseProportions ⟨betas, thetas, .arr kps⟩).shinLength 0.6)
        (deriveBaseProportions ⟨betas, thetas, .arr kps⟩).shinLength
      = (deriveBaseProportions ⟨betas, thetas, .arr kps⟩).shinLength
    rw [avgPair_none h1 h2, clampAround_none, jsOrD_none]

theorem torsoLength_none_final (betas : BetasField) (thetas : ThetasField) (kps : List Keypoint)
    (h : truthyVal (torsoLengthKP (buildKeypointMap kps 0.3)
        (deriveBaseProportions ⟨betas, thetas, .arr kps⟩)) = none) :
    (deriveProportions ⟨betas, thetas, .arr kps⟩).torsoLength
      = (deriveBaseProportions ⟨betas, thetas, .arr kps⟩).torsoLength := by
  rcases deriveProportions_cases betas thetas kps with ⟨hkm, hr⟩ | hr
  · rw [hr]
    rfl
  · rw [hr]
    show jsOrD (clampAround (truthyVal (torsoLengthKP (buildKeypointMap kps 0.3)
        (deriveBaseProportions ⟨betas, thetas, .arr kps⟩)))
        (deriveBaseProportions ⟨betas, thetas, .arr kps⟩).torsoLength 0.4)
        (deriveBaseProportions ⟨betas, thetas, .arr kps⟩).torsoLength
      = (deriveBaseProportions ⟨betas, thetas, .arr kps⟩).torsoLength
    rw [h, clampAround_none, jsOrD_none]

theorem head_none_final (betas : BetasField) (thetas : ThetasField) (kps : List Keypoint)
    (h1 : truthyVal (eyeDistanceKP (buildKeypointMap kps 0.3)
        (deriveBaseProportions ⟨betas, thetas, .arr kps⟩)) = none)
    (h2 : truthyVal (noseEarKP (buildKeypointMap kps 0.3)
        (deriveBaseProportions ⟨betas, thetas, .arr kps⟩)) = none) :
    (deriveProportions ⟨betas, thetas, .arr kps⟩).headRadius
      = (deriveBaseProportions ⟨betas, thetas, .arr kps⟩).headRadius := by
  have hwe : headWidthEstimate (buildKeypointMap kps 0.3)
      (deriveBaseProportions ⟨betas, thetas, .arr kps⟩) = none := by
    simp only [headWidthEstimate, jsOrNum, h1, h2]
  rcases deriveProportions_cases betas thetas kps with ⟨hkm, hr⟩ | hr
  · rw [hr]
    rfl
  · rw [hr]
    show jsOrD (clampAround
        (match truthyVal (headWidthEstimate (buildKeypointMap kps 0.3)
            (deriveBaseProportions ⟨betas, thetas, .arr kps⟩)) with
          | some v => some (v * 0.35)
          | none => none)
        (deriveBaseProportions ⟨betas, thetas, .arr kps⟩).headRadius 0.4)
        (deriveBaseProportions ⟨betas, thetas, .arr kps⟩).headRadius
      = (deriveBaseProportions ⟨betas, thetas, .arr kps⟩).headRadius
    rw [hwe]
    show jsOrD (clampAround none
        (deriveBaseProportions ⟨betas, thetas, .arr kps⟩).headRadius 0.4)
        (deriveBaseProportions ⟨betas, thetas, .arr kps⟩).headRadius
      = (deriveBaseProportions ⟨betas, thetas, .arr kps⟩).headRadius
    rw [clampAround_none, jsOrD_none]

/-- C5 (amended): no field of the record is ever Infinity or NaN (the
model is total over the reals because every division is guarded); an
undefined or zero normalized-height distance makes the world-scale
factor fall back to 1.0 and the world height to the baseline height; a
zero bilateral-limb, torso or head distance makes the corresponding
field fall back to the baseline value; but a zero shoulder-width or
hip-width distance is clamped to the lower edge of its band — 0.4 times
and 0.2 times the baseline value respectively — rather than falling
back to the baseline (the shoulder-derived limbRadius and torsoRadius
do fall back). -/
theorem spec_C5 : ∀ (betas : BetasField) (thetas : ThetasField) (kps : List Keypoint),
    (truthyVal (heightNorm (buildKeypointMap kps 0.3)) = none →
      scaleFactor (buildKeypointMap kps 0.3)
          (deriveBaseProportions ⟨betas, thetas, .arr kps⟩) = 1.0
      ∧ heightWorld (buildKeypointMap kps 0.3)
          (deriveBaseProportions ⟨betas, thetas, .arr kps⟩)
        = (deriveBaseProportions ⟨betas, thetas, .arr kps⟩).height)
    ∧ (shoulderWidthKP (buildKeypointMap kps 0.3)
          (deriveBaseProportions ⟨betas, thetas, .arr kps⟩) = some 0 →
        (deriveProportions ⟨betas, thetas, .arr kps⟩).shoulderWidth
          = (deriveBaseProportions ⟨betas, thetas, .arr kps⟩).shoulderWidth * (1 - 0.6)
        ∧ (deriveProportions ⟨betas, thetas, .arr kps⟩).limbRadius
          = (deriveBaseProportions ⟨betas, thetas, .arr kps⟩).limbRadius
        ∧ (deriveProportions ⟨betas, thetas, .arr kps⟩).torsoRadius
          = (deriveBaseProportions ⟨betas, thetas, .arr kps⟩).torsoRadius)
    ∧ (hipWidthKP (buildKeypointMap kps 0.3)
          (deriveBaseProportions ⟨betas, thetas, .arr kps⟩) = some 0 →
        (deriveProportions ⟨betas, thetas, .arr kps⟩).hipWidth
          = (deriveBaseProportions ⟨betas, thetas, .arr kps⟩).hipWidth * (1 - 0.8))
    ∧ (truthyVal (upperArmLeftKP (buildKeypointMap kps 0.3)
          (deriveBaseProportions ⟨betas, thetas, .arr kps⟩)) = none →
        truthyVal (upperArmRightKP (buildKeypointMap kps 0.3)
          (deriveBaseProportions ⟨betas, thetas, .arr kps⟩)) = none →
        (deriveProportions ⟨betas, thetas, .arr kps⟩).upperArmLength
          = (deriveBaseProportions ⟨betas, thetas, .arr kps⟩).upperArmLength)
    ∧ (truthyVal (forearmLeftKP (buildKeypointMap kps 0.3)
          (deriveBaseProportions ⟨betas, thetas, .arr kps⟩)) = none →
        truthyVal (forearmRightKP (buildKeypointMap kps 0.3)
          (deriveBaseProportions ⟨betas, thetas, .arr kps⟩)) = none →
        (deriveProportions ⟨betas, thetas, .arr kps⟩).forearmLength
          = (deriveBaseProportions ⟨betas, thetas, .arr kps⟩).forearmLength)
    ∧ (truthyVal (thighLeftKP (buildKeypointMap kps 0.3)
          (deriveBaseProportions ⟨betas, thetas, .arr kps⟩)) = none →
        truthyVal (thighRightKP (buildKeypointMap kps 0.3)
          (deriveBaseProportions ⟨betas, thetas, .arr kps⟩)) = none →
        (deriveProportions ⟨betas, thetas, .arr kps⟩).thighLength
          = (deriveBaseProportions ⟨betas, thetas, .arr kps⟩).thighLength)
    ∧ (truthyVal (shinLeftKP (buildKeypointMap kps 0.3)
          (deriveBaseProportions ⟨betas, thetas, .arr kps⟩)) = none →
        truthyVal (shinRightKP (buildKeypointMap kps 0.3)
          (deriveBaseProportions ⟨betas, thetas, .arr kps⟩)) = none →
        (deriveProportions ⟨betas, thetas, .arr kps⟩).shinLength
          = (deriveBaseProportions ⟨betas, thetas, .arr kps⟩).shinLength)
    ∧ (truthyVal (torsoLengthKP (buildKeypointMap kps 0.3)
          (deriveBaseProportions ⟨betas, thetas, .arr kps⟩)) = none →
        (deriveProportions ⟨betas, thetas, .arr kps⟩).torsoLength
          = (deriveBaseProportions ⟨betas, thetas, .arr kps⟩).torsoLength)
    ∧ (truthyVal (eyeDistanceKP (buildKeypointMap kps 0.3)
          (deriveBaseProportions ⟨betas, thetas, .arr kps⟩)) = none →
        truthyVal (noseEarKP (buildKeypointMap kps 0.3)
          (deriveBaseProportions ⟨betas, thetas, .arr kps⟩)) = none →
        (deriveProportions ⟨betas, thetas, .arr kps⟩).headRadius
          = (deriveBaseProportions ⟨betas, thetas, .arr kps⟩).headRadius) := by
  intro betas thetas kps
  refine ⟨?_, shoulder_zero_final betas thetas kps, hip_zero_final betas thetas kps,
    upperArm_none_final betas thetas kps, forearm_none_final betas thetas kps,
    thigh_none_final betas thetas kps, shin_none_final betas thetas kps,
    torsoLength_none_final betas thetas kps, head_none_final betas thetas kps⟩
  intro h
  constructor
  · simp only [scaleFactor, h]
  · simp only [heightWorld, h]

theorem coShoulder_sw :
    deriveBaseProportions coShoulderInput = zeroBase
    ∧ shoulderWidthKP (buildKeypointMap coShoulderKps 0.3) zeroBase = some 0 := by
  have hbase : deriveBaseProportions ⟨.nums [], .missing, .arr coShoulderKps⟩ = zeroBase :=
    base_zero_eval _ _ _ rfl rfl rfl rfl
  have hls : buildKeypointMap coShoulderKps 0.3 "left_shoulder"
      = some ⟨"left_shoulder", 0.5, 0.5, 0.9⟩ := by
    rw [buildKeypointMap_lookup]
    norm_num +decide [lastConfident, kpAccepted, coShoulderKps]
  have hrs : buildKeypointMap coShoulderKps 0.3 "right_shoulder"
      = some ⟨"right_shoulder", 0.5, 0.5, 0.9⟩ := by
    rw [buildKeypointMap_lookup]
    norm_num +decide [lastConfident, kpAccepted, coShoulderKps]
  have hnone : ∀ n, n ≠ "left_shoulder" → n ≠ "right_shoulder" →
      buildKeypointMap coShoulderKps 0.3 n = none := by
    intro n h1 h2
    rw [buildKeypointMap_lookup]
    simp [lastConfident, coShoulderKps, Ne.symm h1, Ne.symm h2]
  have hhead : headPt (buildKeypointMap coShoulderKps 0.3) = none := by
    rw [headPt, kpPt_eq_none (hnone "nose" (by decide) (by decide)),
      kpPt_eq_none (hnone "left_eye" (by decide) (by decide)),
      kpPt_eq_none (hnone "right_eye" (by decide) (by decide))]
    rfl
  have hankle : ankleMid (buildKeypointMap coShoulderKps 0.3) = none := by
    rw [ankleMid, kpPt_eq_none (hnone "left_ankle" (by decide) (by decide)),
      kpPt_eq_none (hnone "right_ankle" (by decide) (by decide))]
    exact midpoint_none2
  have hsm : shoulderMid (buildKeypointMap coShoulderKps 0.3)
      = some ⟨(0.5 + 0.5) / 2, (0.5 + 0.5) / 2, (0.9 + 0.9) / 2⟩ := by
    rw [shoulderMid, kpPt_eq_some hls, kpPt_eq_some hrs]
    exact midpoint_pair _ _
  have hbody : bodyHeightNorm (buildKeypointMap coShoulderKps 0.3) = none := by
    simp only [bodyHeightNorm, hhead, hankle]
  have hbackup : backupHeightNorm (buildKeypointMap coShoulderKps 0.3) = none := by
    simp only [backupHeightNorm, hsm, hankle]
  have hnorm : heightNorm (buildKeypointMap coShoulderKps 0.3) = none := by
    simp only [heightNorm, jsOrNum, hbody, hbackup, truthyVal]
  have hscale : scaleFactor (buildKeypointMap coShoulderKps 0.3) zeroBase = 1.0 := by
    simp only [scaleFactor, hnorm, truthyVal]
  have hd : distance2D (⟨"left_shoulder", 0.5, 0.5, 0.9⟩ : Keypoint).pt
      (⟨"right_shoulder", 0.5, 0.5, 0.9⟩ : Keypoint).pt = 0 := by
    have hy : ((⟨"left_shoulder", 0.5, 0.5, 0.9⟩ : Keypoint).pt).y
        = ((⟨"right_shoulder", 0.5, 0.5, 0.9⟩ : Keypoint).pt).y := by
      norm_num [Keypoint.pt]
    rw [distance2D_same_y hy]
    rw [show ((⟨"left_shoulder", 0.5, 0.5, 0.9⟩ : Keypoint).pt.x
        - (⟨"right_shoulder", 0.5, 0.5, 0.9⟩ : Keypoint).pt.x) = 0 from by
      norm_num [Keypoint.pt]]
    exact abs_zero
  refine ⟨hbase, ?_⟩
  rw [shoulderWidthKP, kpPt_eq_some hls, kpPt_eq_some hrs, measureSeg_some, hscale, hd]
  norm_num

/-- C5 witness: the coincident-shoulder input resolves shoulder width to
the zero distance, and the theorem then gives the three conclusions at
that input. -/
theorem spec_C5_witness :
    shoulderWidthKP (buildKeypointMap coShoulderKps 0.3)
        (deriveBaseProportions ⟨.nums [], .missing, .arr coShoulderKps⟩) = some 0
    ∧ (deriveProportions ⟨.nums [], .missing, .arr coShoulderKps⟩).shoulderWidth
        = (deriveBaseProportions ⟨.nums [], .missing, .arr coShoulderKps⟩).shoulderWidth
            * (1 - 0.6)
    ∧ (deriveProportions ⟨.nums [], .missing, .arr coShoulderKps⟩).limbRadius
        = (deriveBaseProportions ⟨.nums [], .missing, .arr coShoulderKps⟩).limbRadius
    ∧ (deriveProportions ⟨.nums [], .missing, .arr coShoulderKps⟩).torsoRadius
        = (deriveBaseProportions ⟨.nums [], .missing, .arr coShoulderKps⟩).torsoRadius := by
  have hsw : shoulderWidthKP (buildKeypointMap coShoulderKps 0.3)
      (deriveBaseProportions ⟨.nums [], .missing, .arr coShoulderKps⟩) = some 0 := by
    rw [show deriveBaseProportions ⟨.nums [], .missing, .arr coShoulderKps⟩ = zeroBase from
      coShoulder_sw.1]
    exact coShoulder_sw.2
  have h := (spec_C5 (.nums []) .missing coShoulderKps).2.1 hsw
  exact ⟨hsw, h.1, h.2.1, h.2.2⟩

/-- C5 counterexample: with the two shoulders confident and coincident
(zero pairwise distance), the final shoulder width is 0.152 — the lower
edge of the clamp band — while the baseline value it was claimed to fall
back to is 0.38. -/
theorem spec_C5_cex :
    (deriveProportions coShoulderInput).shoulderWidth = 0.152
    ∧ (deriveBaseProportions coShoulderInput).shoulderWidth = 0.38
    ∧ (deriveProportions coShoulderInput).shoulderWidth
        ≠ (deriveBaseProportions coShoulderInput).shoulderWidth := by
  have hsw : shoulderWidthKP (buildKeypointMap coShoulderKps 0.3)
      (deriveBaseProportions ⟨.nums [], .missing, .arr coShoulderKps⟩) = some 0 := by
    rw [show deriveBaseProportions ⟨.nums [], .missing, .arr coShoulderKps⟩ = zeroBase from
      coShoulder_sw.1]
    exact coShoulder_sw.2
  have h := (shoulder_zero_final (.nums []) .missing coShoulderKps hsw).1
  have hbsw : (deriveBaseProportions coShoulderInput).shoulderWidth = 0.38 := by
    rw [show deriveBaseProportions coShoulderInput = zeroBase from coShoulder_sw.1]
    norm_num [zeroBase]
  refine ⟨?_, hbsw, ?_⟩
  · rw [show (deriveProportions coShoulderInput).shoulderWidth
        = (deriveBaseProportions coShoulderInput).shoulderWidth * (1 - 0.6) from h, hbsw]
    norm_num
  · rw [show (deriveProportions coShoulderInput).shoulderWidth
        = (deriveBaseProportions coShoulderInput).shoulderWidth * (1 - 0.6) from h, hbsw]
    norm_num

theorem c6_eval :
    deriveBaseProportions c6input = zeroBase
    ∧ heightNorm (buildKeypointMap c6kps 0.3) = some 0.85
    ∧ scaleFactor (buildKeypointMap c6kps 0.3) zeroBase = 2
    ∧ deriveProportionsFromKeypoints c6kps zeroBase
        = (⟨some 1.7, none, none, some 0.04, none, none, some 0.133, none, none, none, none⟩,
           ["shoulder width", "hip width", "upper arm length", "forearm length",
            "thigh length", "shin length", "head size"])
    ∧ deriveProportions c6input = zeroBase := by
  have hbase : deriveBaseProportions ⟨.nums c6betas, .missing, .arr c6kps⟩ = zeroBase :=
    base_zero_eval _ _ _ rfl rfl rfl rfl
  have hnose : buildKeypointMap c6kps 0.3 "nose" = some ⟨"nose", 0.5, 0.1, 0.9⟩ := by
    rw [buildKeypointMap_lookup]
    norm_num +decide [lastConfident, kpAccepted, c6kps]
  have hla : buildKeypointMap c6kps 0.3 "left_ankle"
      = some ⟨"left_ankle", 0.45, 0.95, 0.8⟩ := by
    rw [buildKeypointMap_lookup]
    norm_num +decide [lastConfident, kpAccepted, c6kps]
  have hra : buildKeypointMap c6kps 0.3 "right_ankle"
      = some ⟨"right_ankle", 0.55, 0.95, 0.8⟩ := by
    rw [buildKeypointMap_lookup]
    norm_num +decide [lastConfident, kpAccepted, c6kps]
  have hnone : ∀ n, n ≠ "nose" → n ≠ "left_ankle" → n ≠ "right_ankle" →
      buildKeypointMap c6kps 0.3 n = none := by
    intro n h1 h2 h3
    rw [buildKeypointMap_lookup]
    simp [lastConfident, c6kps, Ne.symm h1, Ne.symm h2, Ne.symm h3]
  have hhead : headPt (buildKeypointMap c6kps 0.3)
      = some (⟨"nose", 0.5, 0.1, 0.9⟩ : Keypoint).pt := by
    rw [headPt, kpPt_eq_some hnose]
    rfl
  have hank : ankleMid (buildKeypointMap c6kps 0.3)
      = some ⟨(0.45 + 0.55) / 2, (0.95 + 0.95) / 2, (0.8 + 0.8) / 2⟩ := by
    rw [ankleMid, kpPt_eq_some hla, kpPt_eq_some hra]
    exact midpoint_pair _ _
  have hd : distance2D (⟨"nose", 0.5, 0.1, 0.9⟩ : Keypoint).pt
      ⟨(0.45 + 0.55) / 2, (0.95 + 0.95) / 2, (0.8 + 0.8) / 2⟩ = 0.85 := by
    have hx : ((⟨"nose", 0.5, 0.1, 0.9⟩ : Keypoint).pt).x
        = (⟨(0.45 + 0.55) / 2, (0.95 + 0.95) / 2, (0.8 + 0.8) / 2⟩ : Pt).x := by
      norm_num [Keypoint.pt]
    rw [distance2D_same_x hx]
    rw [show (((⟨"nose", 0.5, 0.1, 0.9⟩ : Keypoint).pt).y
        - (⟨(0.45 + 0.55) / 2, (0.95 + 0.95) / 2, (0.8 + 0.8) / 2⟩ : Pt).y) = -0.85 from by
      norm_num [Keypoint.pt]]
    rw [abs_neg, abs_of_nonneg (by norm_num)]
  have hbody : bodyHeightNorm (buildKeypointMap c6kps 0.3) = some 0.85 := by
    simp only [bodyHeightNorm, hhead, hank]
    rw [hd]
  have hnorm : heightNorm (buildKeypointMap c6kps 0.3) = some 0.85 := by
    simp only [heightNorm, jsOrNum, hbody,
      truthyVal_some_ne (show (0.85 : ℝ) ≠ 0 from by norm_num)]
  have hscale : scaleFactor (buildKeypointMap c6kps 0.3) zeroBase = 2 := by
    simp only [scaleFactor, hnorm, truthyVal_some_ne (show (0.85 : ℝ) ≠ 0 from by norm_num)]
    rw [show zeroBase.height / 0.85 = (2 : ℝ) from by norm_num [zeroBase]]
    exact clamp_eq_self (by norm_num) (by norm_num)
  have hworld : heightWorld (buildKeypointMap c6kps 0.3) zeroBase = 1.7 := by
    simp only [heightWorld, hnorm, truthyVal_some_ne (show (0.85 : ℝ) ≠ 0 from by norm_num),
      hscale]
    norm_num
  have hsw : shoulderWidthKP (buildKeypointMap c6kps 0.3) zeroBase = none := by
    rw [shoulderWidthKP, kpPt_eq_none (hnone "left_shoulder" (by decide) (by decide)
      (by decide)), measureSeg_none_left]
  have hhip : hipWidthKP (buildKeypointMap c6kps 0.3) zeroBase = none := by
    rw [hipWidthKP, kpPt_eq_none (hnone "left_hip" (by decide) (by decide) (by decide)),
      measureSeg_none_left]
  have hual : upperArmLeftKP (buildKeypointMap c6kps 0.3) zeroBase = none := by
    rw [upperArmLeftKP, kpPt_eq_none (hnone "left_shoulder" (by decide) (by decide)
      (by decide)), measureSeg_none_left]
  have huar : upperArmRightKP (buildKeypointMap c6kps 0.3) zeroBase = none := by
    rw [upperArmRightKP, kpPt_eq_none (hnone "right_shoulder" (by decide) (by decide)
      (by decide)), measureSeg_none_left]
  have hfl : forearmLeftKP (buildKeypointMap c6kps 0.3) zeroBase = none := by
    rw [forearmLeftKP, kpPt_eq_none (hnone "left_elbow" (by decide) (by decide) (by decide)),
      measureSeg_none_left]
  have hfr : forearmRightKP (buildKeypointMap c6kps 0.3) zeroBase = none := by
    rw [forearmRightKP, kpPt_eq_none (hnone "right_elbow" (by decide) (by decide) (by decide)),
      measureSeg_none_left]
  have hthl : thighLeftKP (buildKeypointMap c6kps 0.3) zeroBase = none := by
    rw [thighLeftKP, kpPt_eq_none (hnone "left_hip" (by decide) (by decide) (by decide)),
      measureSeg_none_left]
  have hthr : thighRightKP (buildKeypointMap c6kps 0.3) zeroBase = none := by
    rw [thighRightKP, kpPt_eq_none (hnone "right_hip" (by decide) (by decide) (by decide)),
      measureSeg_none_left]
  have hshl : shinLeftKP (buildKeypointMap c6kps 0.3) zeroBase = none := by
    rw [shinLeftKP, kpPt_eq_none (hnone "left_knee" (by decide) (by decide) (by decide)),
      measureSeg_none_left]
  have hshr : shinRightKP (buildKeypointMap c6kps 0.3) zeroBase = none := by
    rw [shinRightKP, kpPt_eq_none (hnone "right_knee" (by decide) (by decide) (by decide)),
      measureSeg_none_left]
  have heyed : eyeDistanceKP (buildKeypointMap c6kps 0.3) zeroBase = none := by
    rw [eyeDistanceKP, kpPt_eq_none (hnone "left_eye" (by decide) (by decide) (by decide)),
      measureSeg_none_left]
  have hne_ear : noseEarKP (buildKeypointMap c6kps 0.3) zeroBase = none := by
    rw [noseEarKP, kpPt_eq_none (hnone "right_ear" (by decide) (by decide) (by decide)),
      measureSeg_none_right]
  have hhwe : headWidthEstimate (buildKeypointMap c6kps 0.3) zeroBase = none := by
    simp only [headWidthEstimate, jsOrNum, heyed, hne_ear, truthyVal]
  have hhip2 : hipMid (buildKeypointMap c6kps 0.3) = none := by
    rw [hipMid, kpPt_eq_none (hnone "left_hip" (by decide) (by decide) (by decide)),
      kpPt_eq_none (hnone "right_hip" (by decide) (by decide) (by decide))]
    exact midpoint_none2
  have hneck : neckPt (buildKeypointMap c6kps 0.3)
      = some (⟨"nose", 0.5, 0.1, 0.9⟩ : Keypoint).pt := by
    rw [neckPt, kpPt_eq_none (hnone "neck" (by decide) (by decide) (by decide)),
      kpPt_eq_some hnose]
    rfl
  have htlkp : torsoLengthKP (buildKeypointMap c6kps 0.3) zeroBase = none := by
    simp only [torsoLengthKP, hneck, hhip2]
  have hlimbKP : limbRadiusKP (buildKeypointMap c6kps 0.3) zeroBase = none := by
    simp only [limbRadiusKP, hsw, truthyVal]
  have hnemap : ¬ ∀ n, buildKeypointMap c6kps 0.3 n = none := by
    intro h
    exact absurd (hnose.symm.trans (h "nose")) (by simp)
  have hmeas : measuresOf (buildKeypointMap c6kps 0.3) zeroBase
      = ⟨some 1.7, none, none, some 0.04, none, none, some 0.133, none, none, none, none⟩ := by
    unfold measuresOf
    rw [hworld, hsw, hhip, hual, huar, hfl, hfr, hthl, hthr, hshl, hshr, hhwe, htlkp, hlimbKP]
    have havg : avgPair none none = none := avgPair_none rfl rfl
    rw [havg]
    have hca : clampAround (some (1.7 : ℝ)) zeroBase.height 0.6 = some 1.7 := by
      rw [clampAround_some, show zeroBase.height * (1 - 0.6) = (0.68 : ℝ) from by
        norm_num [zeroBase], show zeroBase.height * (1 + 0.6) = (2.72 : ℝ) from by
        norm_num [zeroBase], clamp_eq_self (by norm_num) (by norm_num)]
    have hcr : clampAround (some (jsOrD none zeroBase.shoulderWidth * 0.35))
        zeroBase.torsoRadius 0.3 = some 0.133 := by
      rw [jsOrD_none, show zeroBase.shoulderWidth * 0.35 = (0.133 : ℝ) from by
        norm_num [zeroBase], clampAround_some,
        show zeroBase.torsoRadius * (1 - 0.3) = (0.0931 : ℝ) from by norm_num [zeroBase],
        show zeroBase.torsoRadius * (1 + 0.3) = (0.1729 : ℝ) from by norm_num [zeroBase],
        clamp_eq_self (by norm_num) (by norm_num)]
    have hlv : jsOrD none zeroBase.limbRadius = 0.04 := by
      rw [jsOrD_none]
      norm_num [zeroBase]
    rw [hca, hcr, hlv]
    simp [clampAround, truthyVal, Measures.mk.injEq]
  have hwarn : warningsOf (buildKeypointMap c6kps 0.3) zeroBase
      = ["shoulder width", "hip width", "upper arm length", "forearm length",
         "thigh length", "shin length", "head size"] := by
    unfold warningsOf
    rw [hsw, hhip, hual, huar, hfl, hfr, hthl, hthr, hshl, hshr, hhwe, hnorm]
    norm_num [truthyVal]
    simp
  have hdpfk : deriveProportionsFromKeypoints c6kps zeroBase
      = (⟨some 1.7, none, none, some 0.04, none, none, some 0.133, none, none, none, none⟩,
         ["shoulder width", "hip width", "upper arm length", "forearm length",
          "thigh length", "shin length", "head size"]) := by
    rw [dpfk_main hnemap, hmeas, hwarn]
  refine ⟨hbase, hnorm, hscale, hdpfk, ?_⟩
  show deriveProportions ⟨.nums c6betas, .missing, .arr c6kps⟩ = zeroBase
  rw [deriveProportions_arr _ _ (by simp [c6kps]), hbase, hdpfk]
  show mergeProportions
      ⟨some 1.7, none, none, some 0.04, none, none, some 0.133, none, none, none, none⟩
      zeroBase = zeroBase
  unfold mergeProportions
  norm_num [jsOrD, truthyVal, zeroBase, ProportionRecord.mk.injEq]

/-- C6: on the concrete scenario — nose at (0.5, 0.1), ankles at
(0.45, 0.95) and (0.55, 0.95), ten zero betas — the normalized height is
the nose-to-ankle-midpoint distance 0.85, the world-scale factor is 2
(0.85 scales to the baseline height 1.7), the height measure resolves to
exactly the baseline 1.7, every field of the final record is the
baseline default, and the diagnostics name every measured segment except
overall height. -/
theorem spec_C6 :
    deriveProportions c6input = zeroBase
    ∧ (deriveProportionsFromKeypoints c6kps (deriveBaseProportions c6input)).1.height
        = some 1.7
    ∧ (deriveProportionsFromKeypoints c6kps (deriveBaseProportions c6input)).2
        = ["shoulder width", "hip width", "upper arm length", "forearm length",
           "thigh length", "shin length", "head size"]
    ∧ heightNorm (buildKeypointMap c6kps 0.3) = some 0.85
    ∧ scaleFactor (buildKeypointMap c6kps 0.3) (deriveBaseProportions c6input) = 2 := by
  refine ⟨c6_eval.2.2.2.2, ?_, ?_, c6_eval.2.1, ?_⟩
  · rw [c6_eval.1, c6_eval.2.2.2.1]
  · rw [c6_eval.1, c6_eval.2.2.2.1]
  · rw [c6_eval.1]
    exact c6_eval.2.2.1

theorem lastConfident_map_scale (k : ℝ) (kps : List Keypoint) (mc : ℝ) (n : String) :
    lastConfident (kps.map (scaleKeypoint k)) mc n
      = (lastConfident kps mc n).map (scaleKeypoint k) := by
  induction kps with
  | nil => rfl
  | cons p rest ih =>
    rw [List.map_cons, lastConfident, lastConfident, ih]
    cases hr : lastConfident rest mc n with
    | some r => rfl
    | none =>
      simp only [Option.map_none']
      by_cases hc : p.name = n ∧ kpAccepted mc p
      · have hc2 : (scaleKeypoint k p).name = n ∧ kpAccepted mc (scaleKeypoint k p) := hc
        rw [if_pos hc2, if_pos hc]
        rfl
      · have hc2 : ¬((scaleKeypoint k p).name = n ∧ kpAccepted mc (scaleKeypoint k p)) := hc
        rw [if_neg hc2, if_neg hc]
        rfl

theorem bkm_map_scale (k : ℝ) (kps : List Keypoint) (mc : ℝ) (n : String) :
    buildKeypointMap (kps.map (scaleKeypoint k)) mc n
      = (buildKeypointMap kps mc n).map (scaleKeypoint k) := by
  rw [buildKeypointMap_lookup, buildKeypointMap_lookup, lastConfident_map_scale]

theorem jsOrObj_map {α β : Type} (f : α → β) (a b : Option α) :
    jsOrObj (a.map f) (b.map f) = (jsOrObj a b).map f := by
  cases a <;> rfl

theorem midpoint_map_scale (k : ℝ) (a b : Option Pt) :
    midpoint [a.map (scalePt k), b.map (scalePt k)] = (midpoint [a, b]).map (scalePt k) := by
  cases a with
  | none =>
    cases b with
    | none => rfl
    | some q =>
      simp only [Option.map_none', Option.map_some', midpoint, List.filterMap_cons,
        List.filterMap_nil]
      norm_num [scalePt, Pt.mk.injEq]
  | some p =>
    cases b with
    | none =>
      simp only [Option.map_none', Option.map_some', midpoint, List.filterMap_cons,
        List.filterMap_nil]
      norm_num [scalePt, Pt.mk.injEq]
    | some q =>
      simp only [Option.map_some', midpoint, List.filterMap_cons, List.filterMap_nil]
      norm_num [scalePt, Pt.mk.injEq]
      refine ⟨by ring, by ring⟩

theorem measureSeg_map_scale {k s s2 : ℝ} (hk : 0 ≤ k) (hs : k * s2 = s) (a b : Option Pt) :
    measureSeg (a.map (scalePt k)) (b.map (scalePt k)) s2 = measureSeg a b s := by
  cases a with
  | none => rfl
  | some p =>
    cases b with
    | none => rfl
    | some q =>
      show (some (distance2D (scalePt k p) (scalePt k q) * s2) : Option ℝ)
        = some (distance2D p q * s)
      rw [distance2D_scale hk, mul_comm k (distance2D p q), mul_assoc, hs]

theorem kmapEmpty_heightNorm {kp : KeypointMap} (h : ∀ n, kp n = none) :
    heightNorm kp = none := by
  have hh : headPt kp = none := by
    rw [headPt, kpPt_eq_none (h "nose"), kpPt_eq_none (h "left_eye"),
      kpPt_eq_none (h "right_eye")]
    rfl
  have ha : ankleMid kp = none := by
    rw [ankleMid, kpPt_eq_none (h "left_ankle"), kpPt_eq_none (h "right_ankle")]
    exact midpoint_none2
  have hs : shoulderMid kp = none := by
    rw [shoulderMid, kpPt_eq_none (h "left_shoulder"), kpPt_eq_none (h "right_shoulder")]
    exact midpoint_none2
  have hb : bodyHeightNorm kp = none := by
    simp only [bodyHeightNorm, hh, ha]
  have hbk : backupHeightNorm kp = none := by
    simp only [backupHeightNorm, hs, ha]
  simp only [heightNorm, jsOrNum, hb, hbk, truthyVal]

/-- C2 (amended): scaling all keypoint coordinates by k changes only the
normalized height estimate and not the estimator output, provided the
world-scale factor stays off its clamp [0.5, 3.0] on both the original
and the scaled input; when the clamp engages the output does change
(see the counterexample). -/
theorem spec_C2 : ∀ (betas : BetasField) (thetas : ThetasField) (kps : List Keypoint)
    (k hn : ℝ),
    0 < k →
    truthyVal (heightNorm (buildKeypointMap kps 0.3)) = some hn →
    0.5 ≤ (deriveBaseProportions ⟨betas, thetas, .arr kps⟩).height / hn →
    (deriveBaseProportions ⟨betas, thetas, .arr kps⟩).height / hn ≤ 3.0 →
    0.5 ≤ (deriveBaseProportions ⟨betas, thetas, .arr kps⟩).height / (k * hn) →
    (deriveBaseProportions ⟨betas, thetas, .arr kps⟩).height / (k * hn) ≤ 3.0 →
    deriveProportionsFromKeypoints (kps.map (scaleKeypoint k))
        (deriveBaseProportions ⟨betas, thetas, .arr kps⟩)
      = deriveProportionsFromKeypoints kps (deriveBaseProportions ⟨betas, thetas, .arr kps⟩)
    ∧ deriveProportions ⟨betas, thetas, .arr (kps.map (scaleKeypoint k))⟩
      = deriveProportions ⟨betas, thetas, .arr kps⟩ := by
  intro betas thetas kps k hn hk htv h1 h2 h3 h4
  have hkne : k ≠ 0 := ne_of_gt hk
  obtain ⟨hhn_eq, hhn0⟩ := truthyVal_eq_some htv
  have hM : ∀ n, buildKeypointMap (kps.map (scaleKeypoint k)) 0.3 n
      = (buildKeypointMap kps 0.3 n).map (scaleKeypoint k) :=
    fun n => bkm_map_scale k kps 0.3 n
  have hkpPt : ∀ n, kpPt (buildKeypointMap (kps.map (scaleKeypoint k)) 0.3) n
      = (kpPt (buildKeypointMap kps 0.3) n).map (scalePt k) := by
    intro n
    simp only [kpPt, hM n]
    cases buildKeypointMap kps 0.3 n <;> rfl
  have hheadPt : headPt (buildKeypointMap (kps.map (scaleKeypoint k)) 0.3)
      = (headPt (buildKeypointMap kps 0.3)).map (scalePt k) := by
    simp only [headPt, hkpPt, jsOrObj_map]
  have hankleMid : ankleMid (buildKeypointMap (kps.map (scaleKeypoint k)) 0.3)
      = (ankleMid (buildKeypointMap kps 0.3)).map (scalePt k) := by
    simp only [ankleMid, hkpPt, midpoint_map_scale]
  have hhipMid : hipMid (buildKeypointMap (kps.map (scaleKeypoint k)) 0.3)
      = (hipMid (buildKeypointMap kps 0.3)).map (scalePt k) := by
    simp only [hipMid, hkpPt, midpoint_map_scale]
  have hshoulderMid : shoulderMid (buildKeypointMap (kps.map (scaleKeypoint k)) 0.3)
      = (shoulderMid (buildKeypointMap kps 0.3)).map (scalePt k) := by
    simp only [shoulderMid, hkpPt, midpoint_map_scale]
  have hneckPt : neckPt (buildKeypointMap (kps.map (scaleKeypoint k)) 0.3)
      = (neckPt (buildKeypointMap kps 0.3)).map (scalePt k) := by
    simp only [neckPt, hkpPt, jsOrObj_map]
  have hbody : bodyHeightNorm (buildKeypointMap (kps.map (scaleKeypoint k)) 0.3)
      = (bodyHeightNorm (buildKeypointMap kps 0.3)).map (fun d => k * d) := by
    simp only [bodyHeightNorm, hheadPt, hankleMid]
    cases headPt (buildKeypointMap kps 0.3) <;>
      cases ankleMid (buildKeypointMap kps 0.3) <;>
      simp [distance2D_scale hk.le]
  have hbackup : backupHeightNorm (buildKeypointMap (kps.map (scaleKeypoint k)) 0.3)
      = (backupHeightNorm (buildKeypointMap kps 0.3)).map (fun d => k * d) := by
    simp only [backupHeightNorm, hshoulderMid, hankleMid]
    cases shoulderMid (buildKeypointMap kps 0.3) <;>
      cases ankleMid (buildKeypointMap kps 0.3) <;>
      simp [distance2D_scale hk.le]
  have hjsmap : ∀ a b : Option ℝ, jsOrNum (a.map (fun d => k * d)) (b.map (fun d => k * d))
      = (jsOrNum a b).map (fun d => k * d) := by
    intro a b
    cases a with
    | none => rfl
    | some d =>
      by_cases hd : d = 0
      · simp [jsOrNum, truthyVal, hd, hkne]
      · simp [jsOrNum, truthyVal, hd, mul_eq_zero, hkne]
  have hnorm2 : heightNorm (buildKeypointMap (kps.map (scaleKeypoint k)) 0.3)
      = (heightNorm (buildKeypointMap kps 0.3)).map (fun d => k * d) := by
    simp only [heightNorm, hbody, hbackup, hjsmap]
  have htv2 : truthyVal (heightNorm (buildKeypointMap (kps.map (scaleKeypoint k)) 0.3))
      = some (k * hn) := by
    rw [hnorm2, hhn_eq]
    simp only [Option.map_some', truthyVal]
    rw [if_neg (by
      intro h0
      rcases mul_eq_zero.mp h0 with h0 | h0
      · exact hkne h0
      · exact hhn0 h0)]
  have hscaleM : scaleFactor (buildKeypointMap kps 0.3)
      (deriveBaseProportions ⟨betas, thetas, .arr kps⟩)
      = (deriveBaseProportions ⟨betas, thetas, .arr kps⟩).height / hn := by
    simp only [scaleFactor, htv]
    exact clamp_eq_self h1 h2
  have hscaleM2 : scaleFactor (buildKeypointMap (kps.map (scaleKeypoint k)) 0.3)
      (deriveBaseProportions ⟨betas, thetas, .arr kps⟩)
      = (deriveBaseProportions ⟨betas, thetas, .arr kps⟩).height / (k * hn) := by
    simp only [scaleFactor, htv2]
    exact clamp_eq_self h3 h4
  have hss : k * scaleFactor (buildKeypointMap (kps.map (scaleKeypoint k)) 0.3)
        (deriveBaseProportions ⟨betas, thetas, .arr kps⟩)
      = scaleFactor (buildKeypointMap kps 0.3)
        (deriveBaseProportions ⟨betas, thetas, .arr kps⟩) := by
    rw [hscaleM, hscaleM2, ← mul_div_assoc]
    exact mul_div_mul_left _ _ hkne
  have hms : ∀ a b : Option Pt,
      measureSeg (a.map (scalePt k)) (b.map (scalePt k))
        (scaleFactor (buildKeypointMap (kps.map (scaleKeypoint k)) 0.3)
          (deriveBaseProportions ⟨betas, thetas, .arr kps⟩))
      = measureSeg a b (scaleFactor (buildKeypointMap kps 0.3)
          (deriveBaseProportions ⟨betas, thetas, .arr kps⟩)) :=
    measureSeg_map_scale hk.le hss
  have hsw2 : shoulderWidthKP (buildKeypointMap (kps.map (scaleKeypoint k)) 0.3)
      (deriveBaseProportions ⟨betas, thetas, .arr kps⟩)
      = shoulderWidthKP (buildKeypointMap kps 0.3)
        (deriveBaseProportions ⟨betas, thetas, .arr kps⟩) := by
    simp only [shoulderWidthKP, hkpPt]
    exact hms _ _
  have hhip2 : hipWidthKP (buildKeypointMap (kps.map (scaleKeypoint k)) 0.3)
      (deriveBaseProportions ⟨betas, thetas, .arr kps⟩)
      = hipWidthKP (buildKeypointMap kps 0.3)
        (deriveBaseProportions ⟨betas, thetas, .arr kps⟩) := by
    simp only [hipWidthKP, hkpPt]
    exact hms _ _
  have hual2 : upperArmLeftKP (buildKeypointMap (kps.map (scaleKeypoint k)) 0.3)
      (deriveBaseProportions ⟨betas, thetas, .arr kps⟩)
      = upperArmLeftKP (buildKeypointMap kps 0.3)
        (deriveBaseProportions ⟨betas, thetas, .arr kps⟩) := by
    simp only [upperArmLeftKP, hkpPt]
    exact hms _ _
  have huar2 : upperArmRightKP (buildKeypointMap (kps.map (scaleKeypoint k)) 0.3)
      (deriveBaseProportions ⟨betas, thetas, .arr kps⟩)
      = upperArmRightKP (buildKeypointMap kps 0.3)
        (deriveBaseProportions ⟨betas, thetas, .arr kps⟩) := by
    simp only [upperArmRightKP, hkpPt]
    exact hms _ _
  have hfl2 : forearmLeftKP (buildKeypointMap (kps.map (scaleKeypoint k)) 0.3)
      (deriveBaseProportions ⟨betas, thetas, .arr kps⟩)
      = forearmLeftKP (buildKeypointMap kps 0.3)
        (deriveBaseProportions ⟨betas, thetas, .arr kps⟩) := by
    simp only [forearmLeftKP, hkpPt]
    exact hms _ _
  have hfr2 : forearmRightKP (buildKeypointMap (kps.map (scaleKeypoint k)) 0.3)
      (deriveBaseProportions ⟨betas, thetas, .arr kps⟩)
      = forearmRightKP (buildKeypointMap kps 0.3)
        (deriveBaseProportions ⟨betas, thetas, .arr kps⟩) := by
    simp only [forearmRightKP, hkpPt]
    exact hms _ _
  have hthl2 : thighLeftKP (buildKeypointMap (kps.map (scaleKeypoint k)) 0.3)
      (deriveBaseProportions ⟨betas, thetas, .arr kps⟩)
      = thighLeftKP (buildKeypointMap kps 0.3)
        (deriveBaseProportions ⟨betas, thetas, .arr kps⟩) := by
    simp only [thighLeftKP, hkpPt]
    exact hms _ _
  have hthr2 : thighRightKP (buildKeypointMap (kps.map (scaleKeypoint k)) 0.3)
      (deriveBaseProportions ⟨betas, thetas, .arr kps⟩)
      = thighRightKP (buildKeypointMap kps 0.3)
        (deriveBaseProportions ⟨betas, thetas, .arr kps⟩) := by
    simp only [thighRightKP, hkpPt]
    exact hms _ _
  have hshl2 : shinLeftKP (buildKeypointMap (kps.map (scaleKeypoint k)) 0.3)
      (deriveBaseProportions ⟨betas, thetas, .arr kps⟩)
      = shinLeftKP (buildKeypointMap kps 0.3)
        (deriveBaseProportions ⟨betas, thetas, .arr kps⟩) := by
    simp only [shinLeftKP, hkpPt]
    exact hms _ _
  have hshr2 : shinRightKP (buildKeypointMap (kps.map (scaleKeypoint k)) 0.3)
      (deriveBaseProportions ⟨betas, thetas, .arr kps⟩)
      = shinRightKP (buildKeypointMap kps 0.3)
        (deriveBaseProportions ⟨betas, thetas, .arr kps⟩) := by
    simp only [shinRightKP, hkpPt]
    exact hms _ _
  have heyed2 : eyeDistanceKP (buildKeypointMap (kps.map (scaleKeypoint k)) 0.3)
      (deriveBaseProportions ⟨betas, thetas, .arr kps⟩)
      = eyeDistanceKP (buildKeypointMap kps 0.3)
        (deriveBaseProportions ⟨betas, thetas, .arr kps⟩) := by
    simp only [eyeDistanceKP, hkpPt]
    exact hms _ _
  have hear2 : noseEarKP (buildKeypointMap (kps.map (scaleKeypoint k)) 0.3)
      (deriveBaseProportions ⟨betas, thetas, .arr kps⟩)
      = noseEarKP (buildKeypointMap kps 0.3)
        (deriveBaseProportions ⟨betas, thetas, .arr kps⟩) := by
    simp only [noseEarKP, hkpPt]
    exact hms _ _
  have hhwe2 : headWidthEstimate (buildKeypointMap (kps.map (scaleKeypoint k)) 0.3)
      (deriveBaseProportions ⟨betas, thetas, .arr kps⟩)
      = headWidthEstimate (buildKeypointMap kps 0.3)
        (deriveBaseProportions ⟨betas, thetas, .arr kps⟩) := by
    simp only [headWidthEstimate, heyed2, hear2]
  have htl2 : torsoLengthKP (buildKeypointMap (kps.map (scaleKeypoint k)) 0.3)
      (deriveBaseProportions ⟨betas, thetas, .arr kps⟩)
      = torsoLengthKP (buildKeypointMap kps 0.3)
        (deriveBaseProportions ⟨betas, thetas, .arr kps⟩) := by
    simp only [torsoLengthKP, hneckPt, hhipMid]
    cases neckPt (buildKeypointMap kps 0.3) with
    | none => rfl
    | some np =>
      cases hipMid (buildKeypointMap kps 0.3) with
      | none => rfl
      | some hp =>
        simp only [Option.map_some']
        exact hms (some np) (some hp)
  have hworld2 : heightWorld (buildKeypointMap (kps.map (scaleKeypoint k)) 0.3)
      (deriveBaseProportions ⟨betas, thetas, .arr kps⟩)
      = heightWorld (buildKeypointMap kps 0.3)
        (deriveBaseProportions ⟨betas, thetas, .arr kps⟩) := by
    simp only [heightWorld, htv, htv2, hscaleM, hscaleM2]
    field_simp
  have hlimb2 : limbRadiusKP (buildKeypointMap (kps.map (scaleKeypoint k)) 0.3)
      (deriveBaseProportions ⟨betas, thetas, .arr kps⟩)
      = limbRadiusKP (buildKeypointMap kps 0.3)
        (deriveBaseProportions ⟨betas, thetas, .arr kps⟩) := by
    simp only [limbRadiusKP, hsw2]
  have hmeas2 : measuresOf (buildKeypointMap (kps.map (scaleKeypoint k)) 0.3)
      (deriveBaseProportions ⟨betas, thetas, .arr kps⟩)
      = measuresOf (buildKeypointMap kps 0.3)
        (deriveBaseProportions ⟨betas, thetas, .arr kps⟩) := by
    unfold measuresOf
    rw [hworld2, hsw2, hhip2, hual2, huar2, hfl2, hfr2, hthl2, hthr2, hshl2, hshr2, hhwe2,
      htl2, hlimb2]
  have hwarn2 : warningsOf (buildKeypointMap (kps.map (scaleKeypoint k)) 0.3)
      (deriveBaseProportions ⟨betas, thetas, .arr kps⟩)
      = warningsOf (buildKeypointMap kps 0.3)
        (deriveBaseProportions ⟨betas, thetas, .arr kps⟩) := by
    unfold warningsOf
    rw [hsw2, hhip2, hual2, huar2, hfl2, hfr2, hthl2, hthr2, hshl2, hshr2, hhwe2, htv, htv2]
    simp
  have hMne : ¬ ∀ n, buildKeypointMap kps 0.3 n = none := by
    intro hall
    rw [kmapEmpty_heightNorm hall] at htv
    exact Option.noConfusion htv
  have hM2ne : ¬ ∀ n, buildKeypointMap (kps.map (scaleKeypoint k)) 0.3 n = none := by
    intro hall
    apply hMne
    intro n
    have := hall n
    rw [hM n] at this
    exact Option.map_eq_none'.mp this
  have hdpfk2 : deriveProportionsFromKeypoints (kps.map (scaleKeypoint k))
      (deriveBaseProportions ⟨betas, thetas, .arr kps⟩)
      = deriveProportionsFromKeypoints kps
        (deriveBaseProportions ⟨betas, thetas, .arr kps⟩) := by
    rw [dpfk_main hM2ne, dpfk_main hMne, hmeas2, hwarn2]
  refine ⟨hdpfk2, ?_⟩
  have hknil : kps ≠ [] := by
    intro h
    subst h
    exact hMne fun n => buildKeypointMap_nil 0.3 n
  have hknil2 : kps.map (scaleKeypoint k) ≠ [] := by
    simp [hknil]
  rw [deriveProportions_arr _ _ hknil2, deriveProportions_arr _ _ hknil]
  have hbeq : deriveBaseProportions ⟨betas, thetas, .arr (kps.map (scaleKeypoint k))⟩
      = deriveBaseProportions ⟨betas, thetas, .arr kps⟩ := rfl
  rw [hbeq, hdpfk2]

/-- C2 witness: the concrete nose-plus-ankles scenario with k = 2; both
scale ratios 2 and 1 lie inside [0.5, 3.0], and the estimator output is
unchanged. -/
theorem spec_C2_witness :
    (0 : ℝ) < 2
    ∧ truthyVal (heightNorm (buildKeypointMap c6kps 0.3)) = some 0.85
    ∧ deriveProportions ⟨.nums c6betas, .missing, .arr (c6kps.map (scaleKeypoint 2))⟩
        = deriveProportions ⟨.nums c6betas, .missing, .arr c6kps⟩ := by
  have htv : truthyVal (heightNorm (buildKeypointMap c6kps 0.3)) = some 0.85 := by
    rw [c6_eval.2.1]
    exact truthyVal_some_ne (by norm_num)
  have hb : deriveBaseProportions ⟨.nums c6betas, .missing, .arr c6kps⟩ = zeroBase :=
    c6_eval.1
  refine ⟨by norm_num, htv, ?_⟩
  exact (spec_C2 (.nums c6betas) .missing c6kps 2 0.85 (by norm_num) htv
    (by rw [hb]; norm_num [zeroBase]) (by rw [hb]; norm_num [zeroBase])
    (by rw [hb]; norm_num [zeroBase]) (by rw [hb]; norm_num [zeroBase])).2

/-- C7 counterexample: with only the two eye keypoints detected, the head
width estimate resolves to 0.8, and the recorded headRadius is the raw
estimate 0.8 * 0.35 clamped with span 0.4 around the baseline — not the
span 0.6 the claim asserts for every non-hip measurement. -/
theorem spec_C7_cex :
    headWidthEstimate (buildKeypointMap eyesKps 0.3) (deriveBaseProportions eyesInput)
      = some 0.8
    ∧ (deriveProportionsFromKeypoints eyesKps (deriveBaseProportions eyesInput)).1.headRadius
        = clampAround (some (0.8 * 0.35)) (deriveBaseProportions eyesInput).headRadius 0.4
    ∧ (deriveProportionsFromKeypoints eyesKps (deriveBaseProportions eyesInput)).1.headRadius
        ≠ clampAround (some (0.8 * 0.35)) (deriveBaseProportions eyesInput).headRadius 0.6 := by
  have hbase : deriveBaseProportions eyesInput = zeroBase :=
    base_zero_eval (.nums []) .missing (.arr eyesKps) rfl rfl rfl rfl
  have hle : buildKeypointMap eyesKps 0.3 "left_eye" = some ⟨"left_eye", 0.1, 0.5, 0.9⟩ := by
    rw [buildKeypointMap_lookup]
    norm_num +decide [lastConfident, kpAccepted, eyesKps]
  have hre : buildKeypointMap eyesKps 0.3 "right_eye"
      = some ⟨"right_eye", 0.9, 0.5, 0.9⟩ := by
    rw [buildKeypointMap_lookup]
    norm_num +decide [lastConfident, kpAccepted, eyesKps]
  have hnone : ∀ n, n ≠ "left_eye" → n ≠ "right_eye" →
      buildKeypointMap eyesKps 0.3 n = none := by
    intro n h1 h2
    rw [buildKeypointMap_lookup]
    simp [lastConfident, eyesKps, Ne.symm h1, Ne.symm h2]
  have hank : ankleMid (buildKeypointMap eyesKps 0.3) = none := by
    rw [ankleMid, kpPt_eq_none (hnone "left_ankle" (by decide) (by decide)),
      kpPt_eq_none (hnone "right_ankle" (by decide) (by decide))]
    exact midpoint_none2
  have hsm : shoulderMid (buildKeypointMap eyesKps 0.3) = none := by
    rw [shoulderMid, kpPt_eq_none (hnone "left_shoulder" (by decide) (by decide)),
      kpPt_eq_none (hnone "right_shoulder" (by decide) (by decide))]
    exact midpoint_none2
  have hhead : headPt (buildKeypointMap eyesKps 0.3)
      = some (⟨"left_eye", 0.1, 0.5, 0.9⟩ : Keypoint).pt := by
    rw [headPt, kpPt_eq_none (hnone "nose" (by decide) (by decide)), kpPt_eq_some hle]
    rfl
  have hbody : bodyHeightNorm (buildKeypointMap eyesKps 0.3) = none := by
    simp only [bodyHeightNorm, hhead, hank]
  have hbackup : backupHeightNorm (buildKeypointMap eyesKps 0.3) = none := by
    simp only [backupHeightNorm, hsm, hank]
  have hnorm : heightNorm (buildKeypointMap eyesKps 0.3) = none := by
    simp only [heightNorm, jsOrNum, hbody, hbackup, truthyVal]
  have hscale : scaleFactor (buildKeypointMap eyesKps 0.3) zeroBase = 1.0 := by
    simp only [scaleFactor, hnorm, truthyVal]
  have heyed : eyeDistanceKP (buildKeypointMap eyesKps 0.3) zeroBase = some 0.8 := by
    rw [eyeDistanceKP, kpPt_eq_some hle, kpPt_eq_some hre, hscale, measureSeg_some]
    have hy : ((⟨"left_eye", 0.1, 0.5, 0.9⟩ : Keypoint).pt).y
        = ((⟨"right_eye", 0.9, 0.5, 0.9⟩ : Keypoint).pt).y := by norm_num [Keypoint.pt]
    rw [distance2D_same_y hy]
    rw [show ((⟨"left_eye", 0.1, 0.5, 0.9⟩ : Keypoint).pt).x
        - ((⟨"right_eye", 0.9, 0.5, 0.9⟩ : Keypoint).pt).x = -0.8 from by
      norm_num [Keypoint.pt]]
    rw [abs_neg, abs_of_nonneg (by norm_num)]
    norm_num
  have hhwe : headWidthEstimate (buildKeypointMap eyesKps 0.3) zeroBase = some 0.8 := by
    simp only [headWidthEstimate, jsOrNum, heyed,
      truthyVal_some_ne (show (0.8 : ℝ) ≠ 0 from by norm_num)]
  have hnemap : ¬ ∀ n, buildKeypointMap eyesKps 0.3 n = none := by
    intro h
    exact absurd (hle.symm.trans (h "left_eye")) (by simp)
  have hmhr : (measuresOf (buildKeypointMap eyesKps 0.3) zeroBase).headRadius
      = clampAround (some (0.8 * 0.35)) zeroBase.headRadius 0.4 := by
    simp only [measuresOf, hhwe,
      truthyVal_some_ne (show (0.8 : ℝ) ≠ 0 from by norm_num)]
  have h04 : clampAround (some (0.8 * 0.35)) zeroBase.headRadius 0.4 = some 0.1785 := by
    rw [clampAround_some,
      show zeroBase.headRadius * (1 + 0.4) = (0.1785 : ℝ) from by norm_num [zeroBase],
      show (0.8 * 0.35 : ℝ) = 0.28 from by norm_num, clamp_eq_hi (by norm_num)]
  have h06 : clampAround (some (0.8 * 0.35)) zeroBase.headRadius 0.6 = some 0.204 := by
    rw [clampAround_some,
      show zeroBase.headRadius * (1 + 0.6) = (0.204 : ℝ) from by norm_num [zeroBase],
      show (0.8 * 0.35 : ℝ) = 0.28 from by norm_num, clamp_eq_hi (by norm_num)]
  refine ⟨?_, ?_, ?_⟩
  · rw [hbase]
    exact hhwe
  · rw [hbase, dpfk_main hnemap]
    exact hmhr
  · rw [hbase, dpfk_main hnemap, hmhr, h04, h06]
    simp only [ne_eq, Option.some.injEq]
    norm_num

/-- C7 witness: the clamp-band property instantiated at the concrete
nose-plus-ankles keypoint scenario over the all-zero baseline. -/
theorem spec_C7_witness :
    resolvedMeasureBands (deriveBaseProportions ⟨.nums [], .missing, .arr c6kps⟩)
      ((deriveProportionsFromKeypoints c6kps
        (deriveBaseProportions ⟨.nums [], .missing, .arr c6kps⟩)).1) :=
  spec_C7 (.nums []) .missing c6kps

end Shelfie
